import Mathlib

/-!
Verification of the extraction-aggregation-reconciliation pipeline of the
neoasia-msig-generator repository, as a shallow embedding in Lean 4.

Python `float` values are modelled as rationals (`ℚ`), Python `None`-able
fields as `Option`, Python dictionaries (which preserve insertion order) as
association lists, and in-place mutation as functions returning the updated
record.  Python truthiness is modelled explicitly where the code relies on it
(`""`, `0.0`, `[]`, `{}` and `None` are falsy).
-/

namespace MSIG

/-- Python truthiness of an optional string (`None` and `""` are falsy). -/
def optStrTruthy : Option String → Bool
  | some s => s ≠ ""
  | none => false

/-- The value of an optional string seen through Python truthiness:
`None` and `""` count as "no value". -/
def effStr : Option String → Option String
  | some s => if s = "" then none else some s
  | none => none

/-- Python string `<`: lexicographic comparison of the code points. -/
def charListLt : List Char → List Char → Bool
  | [], [] => false
  | [], _ :: _ => true
  | _ :: _, [] => false
  | a :: as, b :: bs =>
      if a < b then true else if b < a then false else charListLt as bs

/-- Python string `<` on `String`. -/
def pyStrLt (a b : String) : Bool :=
  charListLt a.data b.data

/-! ## Enums from `models/shipment.py` -/

/-- `TransportMode` enum (`models/shipment.py`). -/
inductive TransportMode
  | COURIER
  | AIR
  | SEA
  | TRUCK
  | UNKNOWN
deriving DecidableEq, Repr

/-- String `.value` of a `TransportMode` member. -/
def TransportMode.value : TransportMode → String
  | .COURIER => "COURIER"
  | .AIR => "AIR"
  | .SEA => "SEA"
  | .TRUCK => "TRUCK"
  | .UNKNOWN => "UNKNOWN"

/-- `DocumentType` enum (`models/shipment.py`). -/
inductive DocumentType
  | COURIER_LABEL
  | AIR_WAYBILL
  | COMMERCIAL_INVOICE
  | PACKING_LIST
  | CARGO_PERMIT
  | SHIPMENT_REPORT
  | PURCHASE_ORDER
  | BILL_OF_LADING
  | OTHER
  | UNKNOWN
deriving DecidableEq, Repr

/-- `ExtractionConfidence` enum (`models/shipment.py`).  It is a `str` enum in
the source, so comparisons between members go through the string values. -/
inductive ExtractionConfidence
  | HIGH
  | MEDIUM
  | LOW
deriving DecidableEq, Repr

/-- String `.value` of an `ExtractionConfidence` member ("HIGH", "MEDIUM",
"LOW"): the source compares these with Python string `<`. -/
def ExtractionConfidence.value : ExtractionConfidence → String
  | .HIGH => "HIGH"
  | .MEDIUM => "MEDIUM"
  | .LOW => "LOW"

/-- `ValidationSeverity` enum (`models/shipment.py`). -/
inductive ValidationSeverity
  | ERROR
  | WARNING
  | INFO
deriving DecidableEq, Repr

/-- `ValidationIssue` dataclass (`models/shipment.py`). -/
structure ValidationIssue where
  severity : ValidationSeverity
  field : String
  message : String
  suggestion : Option String := none
deriving DecidableEq, Repr

/-- A calendar date, standing in for Python `datetime.date`. -/
structure PyDate where
  year : Nat
  month : Nat
  day : Nat
deriving DecidableEq, Repr

/-- `ExtractionResult` dataclass (`models/shipment.py`): the raw per-page
extraction output consumed by the aggregator. -/
structure ExtractionResult where
  document_type : DocumentType
  confidence : ExtractionConfidence
  tracking_or_awb : Option String := none
  ship_date : Option PyDate := none
  mode : Option TransportMode := none
  flight_numbers : List String := []
  origin_country : Option String := none
  destination_country : Option String := none
  incoterms : Option String := none
  currency : Option String := none
  total_value : Option ℚ := none
  carrier : Option String := none
  vessel_info : Option String := none
  container_number : Option String := none
  brand_codes : List String := []
  page_number : Int := 0
  raw_response : String := ""
  notes : String := ""
  extraction_errors : List String := []
deriving DecidableEq, Repr

/-! ## `DocumentAggregator.aggregate_inbound` (`extractors/vision_extractor.py`) -/

/-- The `aggregated` dictionary built by `DocumentAggregator.aggregate_inbound`.
`flight_vessel` is `none` when the dictionary key is absent. -/
structure Aggregated where
  tracking_or_awb : Option String := none
  ship_date : Option PyDate := none
  mode : Option TransportMode := none
  flight_numbers : List String := []
  vessel_info : Option String := none
  container_number : Option String := none
  origin_country : Option String := none
  incoterms : Option String := none
  carrier : Option String := none
  brand_codes : List String := []
  confidence : ExtractionConfidence := .LOW
  raw_responses : List String := []
  errors : List String := []
  flight_vessel : Option String := none
deriving DecidableEq, Repr

/-- `priority_types` list inside `aggregate_inbound`. -/
def priorityTypes : List DocumentType :=
  [.COURIER_LABEL, .AIR_WAYBILL, .BILL_OF_LADING]

/-- `is_priority = result.document_type in priority_types`. -/
def isPriorityPage (r : ExtractionResult) : Bool :=
  decide (r.document_type ∈ priorityTypes)

/-- One priority-governed scalar write of `aggregate_inbound`: given whether
the page is priority-class, the current field value and the incoming value
(already filtered through truthiness), perform
`if value: if is_priority or cur is None: cur = value`. -/
def scalarWrite (isPriority : Bool) (cur incoming : Option α) : Option α :=
  match incoming with
  | some v => if isPriority || cur.isNone then some v else cur
  | none => cur

/-- `aggregate_inbound` loop: append raw response and extraction errors. -/
def updMeta (acc : Aggregated) (r : ExtractionResult) : Aggregated :=
  { acc with
    raw_responses := acc.raw_responses ++ [r.raw_response],
    errors := acc.errors ++ r.extraction_errors }

/-- `aggregate_inbound` loop: confidence update
`if result.confidence.value < aggregated['confidence'].value` — a Python
string comparison on the enum values. -/
def updConfidence (acc : Aggregated) (r : ExtractionResult) : Aggregated :=
  if (pyStrLt r.confidence.value acc.confidence.value) then
    { acc with confidence := r.confidence } else acc

/-- `aggregate_inbound` loop: tracking/AWB write. -/
def updTracking (acc : Aggregated) (r : ExtractionResult) : Aggregated :=
  { acc with tracking_or_awb :=
      scalarWrite (isPriorityPage r) acc.tracking_or_awb (effStr r.tracking_or_awb) }

/-- `aggregate_inbound` loop: ship date write. -/
def updShipDate (acc : Aggregated) (r : ExtractionResult) : Aggregated :=
  { acc with ship_date := scalarWrite (isPriorityPage r) acc.ship_date r.ship_date }

/-- The transport-mode value seen by the aggregation guard
`if result.mode and result.mode != TransportMode.UNKNOWN`. -/
def effMode (r : ExtractionResult) : Option TransportMode :=
  match r.mode with
  | some m => if m = .UNKNOWN then none else some m
  | none => none

/-- `aggregate_inbound` loop: mode write. -/
def updMode (acc : Aggregated) (r : ExtractionResult) : Aggregated :=
  { acc with mode := scalarWrite (isPriorityPage r) acc.mode (effMode r) }

/-- `aggregate_inbound` loop: carrier write. -/
def updCarrier (acc : Aggregated) (r : ExtractionResult) : Aggregated :=
  { acc with carrier := scalarWrite (isPriorityPage r) acc.carrier (effStr r.carrier) }

/-- `aggregate_inbound` loop: origin country write. -/
def updOrigin (acc : Aggregated) (r : ExtractionResult) : Aggregated :=
  { acc with origin_country :=
      scalarWrite (isPriorityPage r) acc.origin_country (effStr r.origin_country) }

/-- `aggregate_inbound` loop: incoterms — first truthy value from any page. -/
def updIncoterms (acc : Aggregated) (r : ExtractionResult) : Aggregated :=
  match effStr r.incoterms with
  | some v =>
      if acc.incoterms = none then { acc with incoterms := some v } else acc
  | none => acc

/-- `aggregate_inbound` loop: flight numbers are merged from all pages. -/
def updFlights (acc : Aggregated) (r : ExtractionResult) : Aggregated :=
  if r.flight_numbers ≠ [] then
    { acc with flight_numbers := acc.flight_numbers ++ r.flight_numbers } else acc

/-- `aggregate_inbound` loop: vessel info — first truthy value wins. -/
def updVessel (acc : Aggregated) (r : ExtractionResult) : Aggregated :=
  match effStr r.vessel_info with
  | some v =>
      if acc.vessel_info = none then { acc with vessel_info := some v } else acc
  | none => acc

/-- `aggregate_inbound` loop: container number — first truthy value wins. -/
def updContainer (acc : Aggregated) (r : ExtractionResult) : Aggregated :=
  match effStr r.container_number with
  | some v =>
      if acc.container_number = none then
        { acc with container_number := some v } else acc
  | none => acc

/-- `aggregate_inbound` loop: brand codes accepted from purchase orders only. -/
def updBrands (acc : Aggregated) (r : ExtractionResult) : Aggregated :=
  if r.brand_codes ≠ [] ∧ r.document_type = .PURCHASE_ORDER then
    { acc with brand_codes := acc.brand_codes ++ r.brand_codes } else acc

/-- Body of the `for result in results` loop of `aggregate_inbound`: the
sequential field updates of the source, in source order. -/
def aggregateStep (acc : Aggregated) (r : ExtractionResult) : Aggregated :=
  let a1 := updMeta acc r
  let a2 := updConfidence a1 r
  let a3 := updTracking a2 r
  let a4 := updShipDate a3 r
  let a5 := updMode a4 r
  let a6 := updCarrier a5 r
  let a7 := updOrigin a6 r
  let a8 := updIncoterms a7 r
  let a9 := updFlights a8 r
  let a10 := updVessel a9 r
  let a11 := updContainer a10 r
  updBrands a11 r

/-- Order-preserving deduplication, standing in for `list(set(xs))` (whose
order Python leaves unspecified; only membership matters downstream). -/
def dedupKeepFirst (xs : List String) : List String :=
  xs.foldl (fun acc x => if x ∈ acc then acc else acc ++ [x]) []

/-- Insert into a sorted list of strings (Python `<` as the order). -/
def insertStr (x : String) : List String → List String
  | [] => [x]
  | y :: ys => if pyStrLt x y then x :: y :: ys else y :: insertStr x ys

/-- `sorted(list(set(xs)))` for strings. -/
def sortedDedup (xs : List String) : List String :=
  (dedupKeepFirst xs).foldr insertStr []

/-- Post-processing of `aggregate_inbound` after the page loop: deduplicate
flight numbers and brand codes, then combine flight/vessel info for unified
display (`flight_vessel` key added only in the branches that set it). -/
def aggregatePost (acc : Aggregated) : Aggregated :=
  let acc := { acc with flight_numbers := dedupKeepFirst acc.flight_numbers }
  let acc := { acc with brand_codes := sortedDedup acc.brand_codes }
  if acc.mode = some .SEA then
    match acc.vessel_info with
    | some vi =>
        if vi ≠ "" then
          { acc with flight_vessel := some (match acc.container_number with
              | some cn => if cn ≠ "" then vi ++ " / " ++ cn else vi
              | none => vi) }
        else acc
    | none => acc
  else
    if acc.flight_numbers ≠ [] then
      { acc with flight_vessel := some (String.intercalate " / " acc.flight_numbers) }
    else acc

/-- `DocumentAggregator.aggregate_inbound` (`extractors/vision_extractor.py`,
lines 502-609): fold the per-page loop over the page results, then deduplicate
and build the combined `flight_vessel` field.  The `filename` argument is not
read by the source body either. -/
def aggregateInbound (results : List ExtractionResult) (filename : String) :
    Aggregated :=
  let _ := filename
  aggregatePost (results.foldl aggregateStep {})

/-! ### Specification-side views of the aggregation merge -/

/-- A page's contribution to one priority-governed scalar field: whether the
page is priority-class, and the effective (truthy) value it offers. -/
abbrev FieldEntry (α : Type) := Bool × Option α

/-- Value supplied by the last priority-class entry that offers one. -/
def lastPriorityValue (xs : List (FieldEntry α)) : Option α :=
  xs.foldl (fun acc x => match x with | (true, some v) => some v | _ => acc) none

/-- Value supplied by the first entry (of any class) that offers one. -/
def firstValue (xs : List (FieldEntry α)) : Option α :=
  (xs.filterMap Prod.snd).head?

/-- The per-field merge, as a fold of `scalarWrite` from an unset field. -/
def resolveScalar (xs : List (FieldEntry α)) : Option α :=
  xs.foldl (fun cur x => scalarWrite x.1 cur x.2) none

/-- `Modelled from the spec:` the claimed aggregate confidence — the lowest
(least confident) confidence among the contributing pages under the ordering
HIGH > MEDIUM > LOW.  Used only to compare the claim's words with the code. -/
def specConfidenceRank : ExtractionConfidence → Nat
  | .HIGH => 2
  | .MEDIUM => 1
  | .LOW => 0

/-- `Modelled from the spec:` lowest confidence across a non-empty page list. -/
def specLowestConfidence (results : List ExtractionResult) : ExtractionConfidence :=
  results.foldl
    (fun acc r =>
      if specConfidenceRank r.confidence < specConfidenceRank acc then
        r.confidence else acc)
    .HIGH

/-- The combination of `lastPriorityValue` and `firstValue` that, as proved
below, characterises every priority-governed scalar field of the aggregate:
the last priority-class page offering a value wins; failing that, the first
value offered by any page sticks. -/
def priorityResolve (xs : List (FieldEntry α)) : Option α :=
  match lastPriorityValue xs with
  | some v => some v
  | none => firstValue xs

/-- The per-page field entries fed to the scalar merge for one field. -/
def fieldEntries (f : ExtractionResult → Option α)
    (results : List ExtractionResult) : List (FieldEntry α) :=
  results.map (fun r => (isPriorityPage r, f r))

/-- Concrete aggregation inputs: two priority-class (courier label) pages
offering conflicting tracking numbers. -/
def prioPageA : ExtractionResult :=
  { document_type := .COURIER_LABEL, confidence := .HIGH,
    tracking_or_awb := some "884602373339" }

/-- Second priority-class page with a different tracking number. -/
def prioPageB : ExtractionResult :=
  { document_type := .COURIER_LABEL, confidence := .HIGH,
    tracking_or_awb := some "999911112222" }

/-- Concrete aggregation input: a single medium-confidence page. -/
def mediumPage : ExtractionResult :=
  { document_type := .COMMERCIAL_INVOICE, confidence := .MEDIUM }

/-- Concrete aggregation inputs: a high-confidence page then a low-confidence
page. -/
def highPage : ExtractionResult :=
  { document_type := .COURIER_LABEL, confidence := .HIGH }

/-- Low-confidence page used together with `highPage`. -/
def lowPage : ExtractionResult :=
  { document_type := .PACKING_LIST, confidence := .LOW }

/-! ## Ledger model: `SAPPDOData` (`models/shipment.py`) -/

/-- `SAPPDOData` dataclass: the authoritative ledger record parsed from the
SAP export.  `country_splits` is a Python dict, modelled as an insertion-order
association list. -/
structure SAPPDOData where
  pdo_number : String
  brands : List String
  currency : String
  total_value : ℚ
  country_splits : List (String × ℚ)
  source_file : String := ""
  sheet_name : String := ""
  row_count : Nat := 0
deriving DecidableEq, Repr

/-- `SAPPDOData.validate` (`models/shipment.py` lines 172-196).  The splits
check runs only under `if self.country_splits:` (non-empty dict); interpolated
numbers in the message text are omitted (display only). -/
def SAPPDOData.validate (d : SAPPDOData) : List ValidationIssue :=
  let issues : List ValidationIssue := []
  let issues := issues ++
    (if d.country_splits ≠ [] then
      (let splits_sum := (d.country_splits.map Prod.snd).sum
       if |splits_sum - d.total_value| > 1/100 then
         [{ severity := .ERROR, field := "country_splits",
            message := "Splits do not sum to total",
            suggestion := some "Check SAP export for missing rows" }]
       else [])
     else [])
  let issues := issues ++
    (if d.brands = [] then
      [{ severity := .WARNING, field := "brands",
         message := "No brand information found",
         suggestion := some "Brand column may be missing or empty" }]
     else [])
  issues

/-! ## `InboundShipment` and `OutboundShipment` (`models/shipment.py`) -/

/-- `InboundShipment` dataclass. -/
structure InboundShipment where
  reference : String
  etd_date : Option PyDate := none
  tracking_or_awb : Option String := none
  incoterms : Option String := none
  mode : TransportMode := .UNKNOWN
  flight_vessel : Option String := none
  origin_country : Option String := none
  destination_country : String := "SINGAPORE"
  brands : List String := []
  description : Option String := none
  currency : Option String := none
  total_value : Option ℚ := none
  country_splits : List (String × ℚ) := []
  source_files : List String := []
  extraction_confidence : ExtractionConfidence := .MEDIUM
  validation_issues : List ValidationIssue := []
  user_modified_fields : List String := []
deriving DecidableEq, Repr

/-- Python float truthiness of an optional value (`None` and `0.0` falsy). -/
def optNumTruthy : Option ℚ → Bool
  | some q => q ≠ 0
  | none => false

/-- Number of decimal digits in a string (`sum(c.isdigit() for c in s)`). -/
def digitCount (s : String) : Nat :=
  (s.data.filter Char.isDigit).length

/-- The issue list computed by `InboundShipment.validate`
(`models/shipment.py` lines 249-315), before it is stored on the record.
Interpolated numbers in message text are omitted (display only). -/
def InboundShipment.validateIssues (s : InboundShipment) : List ValidationIssue :=
  let issues : List ValidationIssue := []
  let issues := issues ++
    (if ¬ optStrTruthy s.tracking_or_awb then
      [{ severity := .WARNING, field := "tracking_or_awb",
         message := "Missing tracking number or AWB",
         suggestion := some "Check shipping label or air waybill" }]
     else [])
  let issues := issues ++
    (if s.etd_date = none then
      [{ severity := .WARNING, field := "etd_date",
         message := "Missing ship date",
         suggestion := some "Check shipping label date field" }]
     else [])
  let issues := issues ++
    (if s.mode = .COURIER then
      (if optStrTruthy s.flight_vessel then
        [{ severity := .INFO, field := "flight_vessel",
           message := "COURIER mode typically does not have flight info",
           suggestion := some "Verify mode is correct" }]
       else []) ++
      (match s.tracking_or_awb with
       | some t =>
          if t ≠ "" ∧ digitCount t < 10 then
            [{ severity := .WARNING, field := "tracking_or_awb",
               message := "Tracking number has too few digits (expected 12+)",
               suggestion :=
                 some "Verify this is the tracking number, not a reference code" }]
          else []
       | none => [])
     else if s.mode = .AIR then
      (if ¬ optStrTruthy s.flight_vessel then
        [{ severity := .WARNING, field := "flight_vessel",
           message := "AIR mode typically should have flight number",
           suggestion := some "Check air waybill for flight info" }]
       else [])
     else [])
  let issues := issues ++
    (if s.country_splits ≠ [] ∧ optNumTruthy s.total_value then
      (let splits_sum := (s.country_splits.map Prod.snd).sum
       match s.total_value with
       | some tv =>
          if |splits_sum - tv| > 1/100 then
            [{ severity := .ERROR, field := "country_splits",
               message := "Country splits do not match total",
               suggestion := some "Verify SAP data or manually adjust splits" }]
          else []
       | none => [])
     else [])
  issues

/-- `InboundShipment.validate`: computes the fresh issue list and also stores
it on the record (`self.validation_issues = issues` before `return issues`).
The pair is (returned issues, record after the call). -/
def InboundShipment.validateRun (s : InboundShipment) :
    List ValidationIssue × InboundShipment :=
  let issues := s.validateIssues
  (issues, { s with validation_issues := issues })

/-- `OutboundShipment` dataclass. -/
structure OutboundShipment where
  invoice_number : String
  date : Option PyDate := none
  flight_vehicle : Option String := none
  mode : TransportMode := .AIR
  destination : Option String := none
  description : Option String := none
  currency : Option String := none
  value : Option ℚ := none
  origin : String := "SINGAPORE"
  fcl_lcl : String := "LCL"
  awb_file : Option String := none
  invoice_file : Option String := none
  extraction_confidence : ExtractionConfidence := .MEDIUM
  validation_issues : List ValidationIssue := []
deriving DecidableEq, Repr

/-- The issue list computed by `OutboundShipment.validate`
(`models/shipment.py` lines 375-404).  `if not self.value or self.value <= 0`
combines float truthiness with the sign check. -/
def OutboundShipment.validateIssues (s : OutboundShipment) : List ValidationIssue :=
  let issues : List ValidationIssue := []
  let issues := issues ++
    (if s.invoice_number = "" then
      [{ severity := .ERROR, field := "invoice_number",
         message := "Missing invoice number",
         suggestion := some "Check invoice document" }]
     else [])
  let issues := issues ++
    (if ¬ optStrTruthy s.currency then
      [{ severity := .WARNING, field := "currency",
         message := "Missing currency",
         suggestion := some "Check invoice for currency" }]
     else [])
  let issues := issues ++
    (if ¬ optNumTruthy s.value ∨ (∃ q, s.value = some q ∧ q ≤ 0) then
      [{ severity := .WARNING, field := "value",
         message := "Missing or invalid value",
         suggestion := some "Check invoice total" }]
     else [])
  issues

/-- `OutboundShipment.validate`: fresh issues plus their storage on the
record. -/
def OutboundShipment.validateRun (s : OutboundShipment) :
    List ValidationIssue × OutboundShipment :=
  let issues := s.validateIssues
  (issues, { s with validation_issues := issues })

/-! ## Reconciliation (`reconciliation.py`) -/

/-- `ReconciliationType` enum. -/
inductive ReconciliationType
  | VALUE_MISMATCH
  | CURRENCY_MISMATCH
  | COUNTRY_SPLIT_MISMATCH
  | MISSING_IN_SAP
  | MISSING_IN_DOCUMENT
  | BRAND_MISMATCH
deriving DecidableEq, Repr

/-- Dynamically-typed issue payload (`sap_value` / `document_value` fields
hold `Any` in the source). -/
inductive PyValue
  | pynone
  | str (s : String)
  | num (q : ℚ)
deriving DecidableEq, Repr

/-- `ReconciliationIssue` dataclass. -/
structure ReconciliationIssue where
  issue_type : ReconciliationType
  severity : ValidationSeverity
  field : String
  sap_value : PyValue
  document_value : PyValue
  message : String
  suggestion : String
  auto_resolvable : Bool := false
deriving DecidableEq, Repr

/-- `ReconciliationResult` dataclass. -/
structure ReconciliationResult where
  reference : String
  matched_pdo : Option String
  issues : List ReconciliationIssue := []
  sap_used : Bool := true
deriving DecidableEq, Repr

/-- Substring containment, i.e. Python `needle in hay` on strings. -/
def listContainsSub (needle : List Char) : List Char → Bool
  | [] => needle.isEmpty
  | h :: hs => needle.isPrefixOf (h :: hs) || listContainsSub needle hs

/-- Python `needle in hay` on `String`. -/
def pyInStr (needle hay : String) : Bool :=
  listContainsSub needle.data hay.data

/-- Scanner for `re.findall(r'(\d{7})', text)`: left-to-right, non-overlapping
runs of exactly seven decimal digits.  The `Nat` argument counts characters
still to skip after a match was taken. -/
def sevenDigitScan : Nat → List Char → List String
  | _, [] => []
  | Nat.succ k, _ :: cs => sevenDigitScan k cs
  | 0, c :: cs =>
      if ((c :: cs).take 7).length = 7 ∧ ((c :: cs).take 7).all Char.isDigit then
        String.mk ((c :: cs).take 7) :: sevenDigitScan 6 cs
      else sevenDigitScan 0 cs

/-- `re.findall(r'(\d{7})', text)` over a string. -/
def sevenDigitGroups (s : String) : List String :=
  sevenDigitScan 0 s.data

/-- `ReconciliationEngine._find_matching_sap` (`reconciliation.py` lines
208-228): for each seven-digit group of the reference, scan the ledger dict in
insertion order; a record matches by exact `pdo_number` equality or by the
group being a substring of the sheet-name key. -/
def findMatchingSAP (reference : String)
    (sap_data : List (String × SAPPDOData)) : Option SAPPDOData :=
  let rec inner (p : String) : List (String × SAPPDOData) → Option SAPPDOData
    | [] => none
    | (sheet_name, data) :: rest =>
        if data.pdo_number = p then some data
        else if pyInStr p sheet_name then some data
        else inner p rest
  let rec outer : List String → Option SAPPDOData
    | [] => none
    | p :: ps =>
        match inner p sap_data with
        | some d => some d
        | none => outer ps
  outer (sevenDigitGroups reference)

/-- The percentage deviation computed by the value check:
`abs(shipment_value - sap_value) / sap_value * 100`. -/
def valueMismatchPct (sv mtv : ℚ) : ℚ :=
  |sv - mtv| / mtv * 100

/-- The currency-mismatch condition of `reconcile_inbound`:
`if shipment.currency and matched_sap.currency:` guarding
`if shipment.currency != matched_sap.currency:`. -/
def currencyMismatch (shipment : InboundShipment) (m : SAPPDOData) : Prop :=
  optStrTruthy shipment.currency = true ∧ m.currency ≠ ""
    ∧ shipment.currency ≠ some m.currency

instance (shipment : InboundShipment) (m : SAPPDOData) :
    Decidable (currencyMismatch shipment m) := by
  unfold currencyMismatch
  infer_instance

/-- Issue list of the currency check (message text sans interpolation). -/
def currencyCheckIssues (shipment : InboundShipment) (m : SAPPDOData) :
    List ReconciliationIssue :=
  if currencyMismatch shipment m then
    [{ issue_type := .CURRENCY_MISMATCH, severity := .WARNING,
       field := "currency", sap_value := .str m.currency,
       document_value := .str ((shipment.currency).getD ""),
       message := "Currency mismatch",
       suggestion := "SAP currency will be used",
       auto_resolvable := true }]
  else []

/-- In-check currency auto-apply (`if auto_apply: shipment.currency = ...`). -/
def currencyCheckApply (auto_apply : Bool) (shipment : InboundShipment)
    (m : SAPPDOData) : InboundShipment :=
  if currencyMismatch shipment m ∧ auto_apply then
    { shipment with currency := some m.currency } else shipment

/-- The value-check guard `if shipment.total_value and matched_sap.total_value`
combined with the tolerance comparison on the deviation percentage. -/
def valueMismatch (tolerance : ℚ) (shipment : InboundShipment)
    (m : SAPPDOData) : Prop :=
  optNumTruthy shipment.total_value = true ∧ m.total_value ≠ 0
    ∧ valueMismatchPct (shipment.total_value.getD 0) m.total_value > tolerance

instance (tolerance : ℚ) (shipment : InboundShipment) (m : SAPPDOData) :
    Decidable (valueMismatch tolerance shipment m) := by
  unfold valueMismatch
  infer_instance

/-- The value-mismatch issue as a function of the ledger record and the
document value (the severity rule inlined from the source). -/
def valueIssueFor (m : SAPPDOData) (sv : ℚ) : ReconciliationIssue :=
  { issue_type := .VALUE_MISMATCH,
    severity := if valueMismatchPct sv m.total_value < 10 then .INFO
      else .WARNING,
    field := "total_value", sap_value := .num m.total_value,
    document_value := .num sv,
    message := "Value differs from SAP",
    suggestion := "SAP value will be used (source of truth)",
    auto_resolvable := true }

/-- Issue list of the value check (message text sans interpolation). -/
def valueCheckIssues (tolerance : ℚ) (shipment : InboundShipment)
    (m : SAPPDOData) : List ReconciliationIssue :=
  match shipment.total_value with
  | some sv =>
      if sv ≠ 0 ∧ m.total_value ≠ 0
          ∧ valueMismatchPct sv m.total_value > tolerance then
        [valueIssueFor m sv]
      else []
  | none => []

/-- In-check value auto-apply (`if auto_apply: shipment.total_value = ...`). -/
def valueCheckApply (tolerance : ℚ) (auto_apply : Bool)
    (shipment : InboundShipment) (m : SAPPDOData) : InboundShipment :=
  if valueMismatch tolerance shipment m ∧ auto_apply then
    { shipment with total_value := some m.total_value } else shipment

/-- The unconditional auto-apply block (`reconciliation.py` lines 190-204):
currency and total value always from SAP; brands and country splits only when
the SAP record has them (`if matched_sap.brands:` / dict truthiness). -/
def autoApplyBlock (auto_apply : Bool) (shipment : InboundShipment)
    (m : SAPPDOData) : InboundShipment :=
  if auto_apply then
    let s := { shipment with currency := some m.currency,
                             total_value := some m.total_value }
    let s := if m.brands ≠ [] then { s with brands := m.brands } else s
    let s := if m.country_splits ≠ [] then
        { s with country_splits := m.country_splits } else s
    s
  else shipment

/-- `ReconciliationEngine.reconcile_inbound` (`reconciliation.py` lines
111-206), with the engine tolerance and the resolved `auto_apply` flag as
arguments.  Returns the `ReconciliationResult` together with the (possibly
mutated) shipment. -/
def reconcileInbound (tolerance : ℚ) (auto_apply : Bool)
    (shipment : InboundShipment) (sap_data : List (String × SAPPDOData)) :
    ReconciliationResult × InboundShipment :=
  match findMatchingSAP shipment.reference sap_data with
  | none =>
      ({ reference := shipment.reference, matched_pdo := none,
         issues := [{ issue_type := .MISSING_IN_SAP, severity := .WARNING,
                      field := "reference", sap_value := .pynone,
                      document_value := .str shipment.reference,
                      message := "No SAP data found",
                      suggestion := "Check if correct SAP export was uploaded" }],
         sap_used := false }, shipment)
  | some m =>
      let ci := currencyCheckIssues shipment m
      let s1 := currencyCheckApply auto_apply shipment m
      let vi := valueCheckIssues tolerance s1 m
      let s2 := valueCheckApply tolerance auto_apply s1 m
      let s3 := autoApplyBlock auto_apply s2 m
      ({ reference := shipment.reference, matched_pdo := some m.pdo_number,
         issues := ci ++ vi, sap_used := true }, s3)

/-! ## `match_pdo_to_filename` (`parsers/sap_parser.py` lines 248-315) -/

/-- The last five characters of a string (`s[-5:]`). -/
def lastFive (s : String) : List Char :=
  s.data.drop (s.data.length - 5)

/-- Body of the `for pdo_num in pdo_numbers` loop of `match_pdo_to_filename`:
scan the ledger dict in insertion order and, per record, try exact
`pdo_number` equality, then substring containment of the candidate in the
sheet-name key, then last-five-character equality (only when both strings have
at least five characters); the first record for which any method succeeds is
returned. -/
def matchCandidate (pdo_num : String) :
    List (String × SAPPDOData) → Option (String × SAPPDOData)
  | [] => none
  | (sheet_name, data) :: rest =>
      if data.pdo_number = pdo_num then some (pdo_num, data)
      else if pyInStr pdo_num sheet_name then some (pdo_num, data)
      else if 5 ≤ pdo_num.length ∧ 5 ≤ data.pdo_number.length
          ∧ lastFive pdo_num = lastFive data.pdo_number then
        some (pdo_num, data)
      else matchCandidate pdo_num rest

/-- `match_pdo_to_filename`, parameterised by the candidate identifiers
(`extract_pdo_numbers` ends in `list(set(...))`, whose ordering Python leaves
unspecified, so the candidate list is an input here): each candidate is
matched independently and unmatched candidates only log a warning. -/
def matchPdoToFilename (candidates : List String)
    (pdo_data : List (String × SAPPDOData)) : List (String × SAPPDOData) :=
  candidates.filterMap (fun p => matchCandidate p pdo_data)

/-- One predicate collecting the three per-record matching methods. -/
def recordMatchProp (pdo_num : String) (e : String × SAPPDOData) : Prop :=
  e.2.pdo_number = pdo_num ∨ pyInStr pdo_num e.1 = true
    ∨ (5 ≤ pdo_num.length ∧ 5 ≤ e.2.pdo_number.length
        ∧ lastFive pdo_num = lastFive e.2.pdo_number)

instance (pdo_num : String) (e : String × SAPPDOData) :
    Decidable (recordMatchProp pdo_num e) := by
  unfold recordMatchProp
  infer_instance

/-! ## Product classifier (`classifiers/product_classifier.py`) -/

/-- `ProductCategory` enum. -/
inductive ProductCategory
  | MEDICAL_DEVICES
  | SKINCARE_PRODUCTS
  | ORAL_SUPPLEMENTS
  | PHARMACEUTICAL
  | UNKNOWN
deriving DecidableEq, Repr

/-- String `.value` of a `ProductCategory` member. -/
def ProductCategory.value : ProductCategory → String
  | .MEDICAL_DEVICES => "Medical Devices"
  | .SKINCARE_PRODUCTS => "Skincare Products"
  | .ORAL_SUPPLEMENTS => "Oral Supplements"
  | .PHARMACEUTICAL => "Pharmaceutical Products"
  | .UNKNOWN => "Unknown"

/-- `ClassificationResult` dataclass. -/
structure ClassificationResult where
  categories : List ProductCategory
  confidence : ℚ
  reasoning : String
  matched_patterns : List String := []
deriving DecidableEq, Repr

/-- Single-character matchers appearing in the classifier's regexes. -/
inductive RAtom
  | lit (c : Char)
  | anyChar
  | digit
  | space
deriving DecidableEq, Repr

/-- Regex tokens: an atom, an atom under `*`, `+` or `?`, or `\b`. -/
inductive RTok
  | one (a : RAtom)
  | star (a : RAtom)
  | plus (a : RAtom)
  | opt (a : RAtom)
  | wordB
deriving DecidableEq, Repr

/-- A compiled regex is a token sequence (no alternation or grouping is used
by the classifier's patterns). -/
abbrev Pattern := List RTok

/-- Python `re` semantics of the atoms (`.` does not match a newline; `\s`
is the ASCII whitespace class; `\d` the decimal digits). -/
def atomMatches (a : RAtom) (c : Char) : Bool :=
  match a with
  | .lit x => c == x
  | .anyChar => c != '\n'
  | .digit => c.isDigit
  | .space => c == ' ' || c == '\t' || c == '\n' || c == '\r'
      || c == '\x0b' || c == '\x0c'

/-- Python `\w` for ASCII text. -/
def isWordChar (c : Char) : Bool :=
  c.isAlphanum || c == '_'

/-- `\b`: a word/non-word transition between the previous and next
character (string edges count as non-word). -/
def isWordBoundary (prev next : Option Char) : Bool :=
  (match prev with | some c => isWordChar c | none => false)
    != (match next with | some c => isWordChar c | none => false)

/-- Backtracking matcher for a token sequence at a fixed position (`prev` is
the character before the position, for `\b`).  The fuel argument only bounds
the recursion so that the kernel can evaluate it; every call either drops a
token or consumes a character, so `(s.length + 1) * (toks.length + 1)` fuel
(supplied by `matchAt`) is never exhausted. -/
def matchAtFuel : Nat → Pattern → Option Char → List Char → Bool
  | 0, _, _, _ => false
  | _ + 1, [], _, _ => true
  | f + 1, .wordB :: rest, prev, s =>
      isWordBoundary prev s.head? && matchAtFuel f rest prev s
  | f + 1, .one a :: rest, _, s =>
      match s with
      | [] => false
      | c :: cs => atomMatches a c && matchAtFuel f rest (some c) cs
  | f + 1, .opt a :: rest, prev, s =>
      matchAtFuel f rest prev s ||
        (match s with
         | c :: cs => atomMatches a c && matchAtFuel f rest (some c) cs
         | [] => false)
  | f + 1, .plus a :: rest, _, s =>
      match s with
      | [] => false
      | c :: cs => atomMatches a c && matchAtFuel f (.star a :: rest) (some c) cs
  | f + 1, .star a :: rest, prev, s =>
      matchAtFuel f rest prev s ||
        (match s with
         | c :: cs => atomMatches a c && matchAtFuel f (.star a :: rest) (some c) cs
         | [] => false)

/-- Does the token sequence match starting exactly at this position? -/
def matchAt (toks : Pattern) (prev : Option Char) (s : List Char) : Bool :=
  matchAtFuel ((s.length + 1) * (toks.length + 1)) toks prev s

/-- `re.search`: try every start position. -/
def searchFrom (toks : Pattern) (prev : Option Char) : List Char → Bool
  | [] => matchAt toks prev []
  | c :: cs => matchAt toks prev (c :: cs) || searchFrom toks (some c) cs

/-- `re.search(pattern, s)` as a Boolean. -/
def reSearch (toks : Pattern) (s : String) : Bool :=
  searchFrom toks none s.data

/-- Literal characters of a string as regex tokens. -/
def lits (s : String) : Pattern :=
  s.data.map (fun c => RTok.one (.lit c))

/-- Python `str.lower()` (ASCII). -/
def toLowerStr (s : String) : String :=
  String.mk (s.data.map Char.toLower)

/-- Python whitespace test used by `str.strip()`. -/
def isPySpace (c : Char) : Bool :=
  c == ' ' || c == '\t' || c == '\n' || c == '\r' || c == '\x0b' || c == '\x0c'

/-- Python `str.strip()`. -/
def pyStrip (s : String) : String :=
  String.mk (((s.data.dropWhile isPySpace).reverse.dropWhile isPySpace).reverse)

/-- Python `str.startswith` on our strings. -/
def strStartsWith (pre s : String) : Bool :=
  pre.data.isPrefixOf s.data

/-- `verbatim_labels` dictionary, in source insertion order. -/
def verbatimLabels : List (String × List ProductCategory) :=
  [("skincare products & oral supplements",
      [.SKINCARE_PRODUCTS, .ORAL_SUPPLEMENTS]),
   ("skincare products and oral supplements",
      [.SKINCARE_PRODUCTS, .ORAL_SUPPLEMENTS]),
   ("oral supplements & skincare products",
      [.ORAL_SUPPLEMENTS, .SKINCARE_PRODUCTS]),
   ("skincare products", [.SKINCARE_PRODUCTS]),
   ("oral supplements", [.ORAL_SUPPLEMENTS]),
   ("oral supplement", [.ORAL_SUPPLEMENTS]),
   ("medical devices", [.MEDICAL_DEVICES]),
   ("medical device", [.MEDICAL_DEVICES]),
   ("medical devices & skincare products",
      [.MEDICAL_DEVICES, .SKINCARE_PRODUCTS]),
   ("skincare products & medical devices",
      [.SKINCARE_PRODUCTS, .MEDICAL_DEVICES]),
   ("pharmaceutical products", [.PHARMACEUTICAL])]

/-- `brand_categories` dictionary, in source insertion order. -/
def brandCategories : List (String × ProductCategory) :=
  [("profhilo", .MEDICAL_DEVICES), ("viscoderm", .MEDICAL_DEVICES),
   ("nucleofill", .MEDICAL_DEVICES), ("aliaxin", .MEDICAL_DEVICES),
   ("belotero", .MEDICAL_DEVICES), ("radiesse", .MEDICAL_DEVICES),
   ("juvederm", .MEDICAL_DEVICES), ("restylane", .MEDICAL_DEVICES),
   ("teosyal", .MEDICAL_DEVICES), ("sculptra", .MEDICAL_DEVICES),
   ("ellanse", .MEDICAL_DEVICES), ("sunekos", .MEDICAL_DEVICES),
   ("jalupro", .MEDICAL_DEVICES), ("lumi eyes", .MEDICAL_DEVICES),
   ("ejal", .MEDICAL_DEVICES), ("xela rederm", .MEDICAL_DEVICES),
   ("haenkenium", .SKINCARE_PRODUCTS), ("heliocare", .SKINCARE_PRODUCTS),
   ("endocare", .SKINCARE_PRODUCTS), ("neostrata", .SKINCARE_PRODUCTS),
   ("isdin", .SKINCARE_PRODUCTS), ("skinceuticals", .SKINCARE_PRODUCTS),
   ("obagi", .SKINCARE_PRODUCTS), ("zo skin health", .SKINCARE_PRODUCTS),
   ("dermaceutic", .SKINCARE_PRODUCTS), ("biopelle", .SKINCARE_PRODUCTS),
   ("imedeen", .ORAL_SUPPLEMENTS), ("perfectil", .ORAL_SUPPLEMENTS),
   ("nutrafol", .ORAL_SUPPLEMENTS), ("viviscal", .ORAL_SUPPLEMENTS),
   ("collagen supplements", .ORAL_SUPPLEMENTS)]

/-- `\b`-delimited literal word pattern. -/
def wordPat (w : String) : Pattern :=
  [RTok.wordB] ++ lits w ++ [RTok.wordB]

/-- `keyword_patterns` dictionary: per category (in source dict order), the
ordered list of (source regex text, compiled pattern). -/
def keywordPatterns : List (ProductCategory × List (String × Pattern)) :=
  [(.MEDICAL_DEVICES,
    [("\\bsyringe\\b", wordPat "syringe"),
     ("\\binjectable\\b", wordPat "injectable"),
     ("\\bfiller\\b", wordPat "filler"),
     ("\\bimplant\\b", wordPat "implant"),
     ("\\b\\d+mg\\b.*\\bml\\b",
       [RTok.wordB, RTok.plus .digit] ++ lits "mg"
         ++ [RTok.wordB, RTok.star .anyChar, RTok.wordB] ++ lits "ml"
         ++ [RTok.wordB]),
     ("\\bhyaluronic acid\\b", wordPat "hyaluronic acid"),
     ("\\bbiorevital", [RTok.wordB] ++ lits "biorevital"),
     ("\\bskin booster\\b", wordPat "skin booster"),
     ("\\bmesotherapy\\b", wordPat "mesotherapy"),
     ("\\bpeel\\b", wordPat "peel"),
     ("\\blaser\\b", wordPat "laser"),
     ("\\bdevice\\b", wordPat "device"),
     ("\\bsterile\\b", wordPat "sterile"),
     ("\\bmedical\\b", wordPat "medical")]),
   (.SKINCARE_PRODUCTS,
    [("\\bcream\\b", wordPat "cream"),
     ("\\bserum\\b", wordPat "serum"),
     ("\\blotion\\b", wordPat "lotion"),
     ("\\bmoisturiz", [RTok.wordB] ++ lits "moisturiz"),
     ("\\bcleanser\\b", wordPat "cleanser"),
     ("\\btoner\\b", wordPat "toner"),
     ("\\bmask\\b", wordPat "mask"),
     ("\\bsunscreen\\b", wordPat "sunscreen"),
     ("\\bspf\\b", wordPat "spf"),
     ("\\banti.?aging\\b",
       [RTok.wordB] ++ lits "anti" ++ [RTok.opt .anyChar] ++ lits "aging"
         ++ [RTok.wordB]),
     ("\\bskincare\\b", wordPat "skincare"),
     ("\\bskin\\s*care\\b",
       [RTok.wordB] ++ lits "skin" ++ [RTok.star .space] ++ lits "care"
         ++ [RTok.wordB]),
     ("\\btopical\\b", wordPat "topical"),
     ("\\bcosmetic\\b", wordPat "cosmetic")]),
   (.ORAL_SUPPLEMENTS,
    [("\\bsupplement\\b", wordPat "supplement"),
     ("\\bcapsule\\b", wordPat "capsule"),
     ("\\btablet\\b", wordPat "tablet"),
     ("\\bvitamin\\b", wordPat "vitamin"),
     ("\\bcollagen\\b.*\\boral\\b",
       wordPat "collagen" ++ [RTok.star .anyChar] ++ wordPat "oral"),
     ("\\boral\\b.*\\bcollagen\\b",
       wordPat "oral" ++ [RTok.star .anyChar] ++ wordPat "collagen"),
     ("\\bnutrition\\b", wordPat "nutrition"),
     ("\\bdietary\\b", wordPat "dietary"),
     ("\\bpill\\b", wordPat "pill"),
     ("\\bsoftgel\\b", wordPat "softgel")]),
   (.PHARMACEUTICAL,
    [("\\bdrug\\b", wordPat "drug"),
     ("\\bpharmaceutical\\b", wordPat "pharmaceutical"),
     ("\\bmedicine\\b", wordPat "medicine"),
     ("\\bprescription\\b", wordPat "prescription")])]

/-- `compound_rules`: (source regex text, compiled pattern, categories). -/
def compoundRules : List (String × Pattern × List ProductCategory) :=
  [("profhilo\\s+haenkenium\\s+cream",
    (lits "profhilo" ++ [RTok.plus .space] ++ lits "haenkenium"
      ++ [RTok.plus .space] ++ lits "cream", [.SKINCARE_PRODUCTS])),
   ("profhilo.*syringe",
    (lits "profhilo" ++ [RTok.star .anyChar] ++ lits "syringe",
     [.MEDICAL_DEVICES]))]

/-- Python set `add` on an insertion-ordered list model. -/
def addCat (s : List ProductCategory) (c : ProductCategory) :
    List ProductCategory :=
  if c ∈ s then s else s ++ [c]

/-- `sorted(list(matched_categories), key=lambda x: x.value)`: the category
value strings happen to sort in this constructor order. -/
def catSorted (s : List ProductCategory) : List ProductCategory :=
  ([.MEDICAL_DEVICES, .ORAL_SUPPLEMENTS, .PHARMACEUTICAL, .SKINCARE_PRODUCTS,
    .UNKNOWN] : List ProductCategory).filter (· ∈ s)

/-- `" | ".join(parts)` and friends. -/
def strJoin (sep : String) : List String → String
  | [] => ""
  | [x] => x
  | x :: y :: xs => x ++ sep ++ strJoin sep (y :: xs)

/-- `_calculate_confidence` (`product_classifier.py` lines 302-322). -/
def calcConfidence (matched_patterns : List String) : ℚ :=
  if matched_patterns = [] then 1/5
  else
    let brand_matches := (matched_patterns.filter
      (fun p => strStartsWith "brand:" p)).length
    let keyword_matches := (matched_patterns.filter
      (fun p => strStartsWith "keyword:" p)).length
    let compound_matches := (matched_patterns.filter
      (fun p => strStartsWith "compound:" p)).length
    min (1/2 + brand_matches * (1/5) + keyword_matches * (1/10)
      + compound_matches * (1/4)) 1

/-- Verbatim tier: the labels contained in the lowered description, in
dictionary order. -/
def verbatimMatchesOf (desc_lower : String) :
    List (String × List ProductCategory) :=
  verbatimLabels.filter (fun lc => pyInStr lc.1 desc_lower)

/-- The categories accumulated by the verbatim loop (the set `matched_categories`
right after step 0, as an insertion-ordered list). -/
def verbatimCatsOf (desc_lower : String) : List ProductCategory :=
  (verbatimMatchesOf desc_lower).foldl (fun acc lc => lc.2.foldl addCat acc) []

/-- Compound tier: the matching compound rules, in order. -/
def compoundMatchesOf (desc_lower : String) :
    List (String × Pattern × List ProductCategory) :=
  compoundRules.filter (fun r => reSearch r.2.1 desc_lower)

/-- Brand tier: the brand substrings found in the lowered description. -/
def brandMatchesOf (desc_lower : String) : List (String × ProductCategory) :=
  brandCategories.filter (fun bc => pyInStr bc.1 desc_lower)

/-- Keyword tier: per category (dict order), the first matching pattern's
source text, if any. -/
def keywordMatchesOf (desc_lower : String) :
    List (ProductCategory × String) :=
  keywordPatterns.filterMap (fun cp =>
    (cp.2.find? (fun pr => reSearch pr.2 desc_lower)).map (fun pr => (cp.1, pr.1)))

/-- Step 4 of `classify`: the Haenkenium-cream adjustment of the category
set, given the description and the accumulated pattern list. -/
def step4Categories (desc_lower : String) (cats : List ProductCategory)
    (pats : List String) : List ProductCategory :=
  if ProductCategory.MEDICAL_DEVICES ∈ cats
      ∧ ProductCategory.SKINCARE_PRODUCTS ∈ cats
      ∧ pyInStr "haenkenium cream" desc_lower = true then
    (if ¬ ((pats.any (fun p => strStartsWith "keyword:" p
              && pyInStr "syringe" (toLowerStr p)))
          || (pats.any (fun p => strStartsWith "keyword:" p
              && pyInStr "injectable" (toLowerStr p)))) = true then
      cats.filter (· ≠ ProductCategory.MEDICAL_DEVICES)
     else cats)
  else cats

/-- `ProductClassifier.classify` (`product_classifier.py` lines 197-300):
verbatim tier first with an immediate return on any match; otherwise the
compound, brand and keyword tiers all run, accumulating categories (a set)
and pattern strings, followed by the step-4 adjustment and the confidence
calculation.  Reasoning strings keep the source structure without quotes. -/
def classify (description : String) : ClassificationResult :=
  if description = "" then
    { categories := [.UNKNOWN], confidence := 0,
      reasoning := "No description provided" }
  else
    let desc_lower := pyStrip (toLowerStr description)
    let vm := verbatimMatchesOf desc_lower
    let vcats := verbatimCatsOf desc_lower
    if vcats ≠ [] then
      { categories := catSorted vcats, confidence := 95/100,
        reasoning := strJoin " | "
          (vm.map (fun lc => "Verbatim label match: " ++ lc.1)),
        matched_patterns := vm.map (fun lc => "verbatim:" ++ lc.1) }
    else
      let cm := compoundMatchesOf desc_lower
      let cats1 := cm.foldl (fun acc r => r.2.2.foldl addCat acc) []
      let pats1 := cm.map (fun r => "compound:" ++ r.1)
      let reas1 := cm.map (fun r => "Matched compound rule: " ++ r.1)
      let bm := brandMatchesOf desc_lower
      let cats2 := bm.foldl (fun acc bc => addCat acc bc.2) cats1
      let pats2 := pats1 ++ bm.map (fun bc => "brand:" ++ bc.1)
      let reas2 := reas1 ++ bm.map
        (fun bc => "Brand " ++ bc.1 ++ " -> " ++ bc.2.value)
      let km := keywordMatchesOf desc_lower
      let cats3 := km.foldl (fun acc cp => addCat acc cp.1) cats2
      let pats3 := pats2 ++ km.map (fun cp => "keyword:" ++ cp.2)
      let reas3 := reas2 ++ km.map
        (fun cp => "Keyword " ++ cp.2 ++ " -> " ++ cp.1.value)
      let cats4 := step4Categories desc_lower cats3 pats3
      let reas4 := if cats4 ≠ cats3 then
          reas3 ++ ["Haenkenium Cream is skincare, not medical device"]
        else reas3
      let confidence := calcConfidence pats3
      if cats4 = [] then
        { categories := [.UNKNOWN], confidence := 1/5,
          reasoning := "No matching patterns found",
          matched_patterns := pats3 }
      else
        { categories := catSorted cats4, confidence := confidence,
          reasoning := strJoin " | " reas4, matched_patterns := pats3 }

/-! ## Response parsing (`VisionExtractor._parse_response` and helpers) -/

/-- Python `str.upper()` (ASCII). -/
def toUpperStr (s : String) : String :=
  String.mk (s.data.map Char.toUpper)

/-- `str.split(sep)` for a single-character separator. -/
def splitChar (sep : Char) : List Char → List (List Char)
  | [] => [[]]
  | c :: cs =>
      if c == sep then [] :: splitChar sep cs
      else
        match splitChar sep cs with
        | g :: gs => (c :: g) :: gs
        | [] => [[c]]

/-- `s.split(sep)` returning strings. -/
def pySplit (sep : Char) (s : String) : List String :=
  (splitChar sep s.data).map String.mk

/-- Natural number from a non-empty digit list. -/
def digitsToNat (ds : List Char) : Nat :=
  ds.foldl (fun acc c => acc * 10 + (c.toNat - '0'.toNat)) 0

/-- Gregorian leap year. -/
def isLeapYear (y : Nat) : Bool :=
  (y % 4 == 0 && y % 100 != 0) || y % 400 == 0

/-- Days in a month (as `datetime.date` validates). -/
def daysInMonth (y m : Nat) : Nat :=
  if m = 2 then (if isLeapYear y then 29 else 28)
  else if m = 4 ∨ m = 6 ∨ m = 9 ∨ m = 11 then 30
  else 31

/-- `datetime.date(y, m, d)` with its `ValueError` range checks, as `Option`. -/
def mkValidDate (y m d : Nat) : Option PyDate :=
  if 1 ≤ y ∧ y ≤ 9999 ∧ 1 ≤ m ∧ m ≤ 12 ∧ 1 ≤ d ∧ d ≤ daysInMonth y m then
    some ⟨y, m, d⟩
  else none

/-- Month number from an upper-case three-letter abbreviation. -/
def monthAbbrev (s : String) : Option Nat :=
  match s with
  | "JAN" => some 1 | "FEB" => some 2 | "MAR" => some 3 | "APR" => some 4
  | "MAY" => some 5 | "JUN" => some 6 | "JUL" => some 7 | "AUG" => some 8
  | "SEP" => some 9 | "OCT" => some 10 | "NOV" => some 11 | "DEC" => some 12
  | _ => none

/-- The `re.match(r'(\d{1,2})([A-Z]{3})(\d{2})', s)` branch of
`parse_date_flexible` on an upper-cased string, with the backtracking of
`\d{1,2}` (try two leading digits, then one). -/
def parseDDMMMYY (cs : List Char) : Option (Nat × String × Nat) :=
  let attempt := fun (dtake : List Char) (rest : List Char) =>
    match rest with
    | a :: b :: c :: y1 :: y2 :: _ =>
        if a.isUpper && b.isUpper && c.isUpper && y1.isDigit && y2.isDigit then
          some (digitsToNat dtake, String.mk [a, b, c], digitsToNat [y1, y2])
        else none
    | _ => none
  match cs with
  | d1 :: d2 :: rest =>
      if d1.isDigit && d2.isDigit then
        match attempt [d1, d2] rest with
        | some r => some r
        | none => attempt [d1] (d2 :: rest)
      else if d1.isDigit then attempt [d1] (d2 :: rest)
      else none
  | [d1] => if d1.isDigit then attempt [d1] [] else none
  | [] => none

/-- Is every character a decimal digit (and the list non-empty)? -/
def allDigits (cs : List Char) : Bool :=
  !cs.isEmpty && cs.all Char.isDigit

/-- `datetime.fromisoformat` restricted to the `YYYY-MM-DD` date form that
the shipping documents carry. -/
def parseIsoDate (s : String) : Option PyDate :=
  match splitChar '-' s.data with
  | [y, m, d] =>
      if y.length = 4 && allDigits y && m.length = 2 && allDigits m
          && d.length = 2 && allDigits d then
        mkValidDate (digitsToNat y) (digitsToNat m) (digitsToNat d)
      else none
  | _ => none

/-- `%d<sep>%m<sep>%Y` via `strptime`. -/
def parseDMYNum (sep : Char) (s : String) : Option PyDate :=
  match splitChar sep s.data with
  | [d, m, y] =>
      if allDigits d && d.length ≤ 2 && allDigits m && m.length ≤ 2
          && allDigits y && y.length = 4 then
        mkValidDate (digitsToNat y) (digitsToNat m) (digitsToNat d)
      else none
  | _ => none

/-- `%Y/%m/%d` via `strptime`. -/
def parseYMDNum (sep : Char) (s : String) : Option PyDate :=
  match splitChar sep s.data with
  | [y, m, d] =>
      if allDigits d && d.length ≤ 2 && allDigits m && m.length ≤ 2
          && allDigits y && y.length = 4 then
        mkValidDate (digitsToNat y) (digitsToNat m) (digitsToNat d)
      else none
  | _ => none

/-- `%d<sep>%b<sep>%Y` via `strptime` (month abbreviation,
case-insensitive). -/
def parseDMonY (sep : Char) (s : String) : Option PyDate :=
  match splitChar sep s.data with
  | [d, b, y] =>
      if allDigits d && d.length ≤ 2 && allDigits y && y.length = 4 then
        match monthAbbrev (toUpperStr (String.mk b)) with
        | some m => mkValidDate (digitsToNat y) m (digitsToNat d)
        | none => none
      else none
  | _ => none

/-- `parse_date_flexible` (`models/shipment.py` lines 454-509) on the
stripped string: the DDMMMYY courier form (two-digit year mapped to 2000+yy,
dropped unless the month abbreviation is known), then ISO, then the
`strptime` format list. -/
def parseDateStr (s : String) : Option PyDate :=
  let cs := (toUpperStr s).data
  let ddmmmyy :=
    match parseDDMMMYY cs with
    | some (day, mon, yy) =>
        (monthAbbrev mon).bind (fun m => mkValidDate (2000 + yy) m day)
    | none => none
  match ddmmmyy with
  | some d => some d
  | none =>
      match parseIsoDate s with
      | some d => some d
      | none =>
          match parseDMYNum '/' s with
          | some d => some d
          | none =>
              match parseYMDNum '/' s with
              | some d => some d
              | none =>
                  match parseDMYNum '-' s with
                  | some d => some d
                  | none =>
                      match parseDMonY ' ' s with
                      | some d => some d
                      | none => parseDMonY '-' s

/-- JSON values as `json.loads` produces them (numbers as rationals). -/
inductive Json
  | null
  | bool (b : Bool)
  | num (q : ℚ)
  | str (s : String)
  | arr (elems : List Json)
  | obj (fields : List (String × Json))
deriving Repr

/-- JSON whitespace. -/
def isJsonWs (c : Char) : Bool :=
  c == ' ' || c == '\t' || c == '\n' || c == '\r'

/-- Skip JSON whitespace. -/
def skipWs (cs : List Char) : List Char :=
  cs.dropWhile isJsonWs

/-- One string-escape step after a backslash. -/
def jsonEscape (c : Char) : Option Char :=
  match c with
  | '"' => some '"'
  | '\\' => some '\\'
  | '/' => some '/'
  | 'b' => some (Char.ofNat 8)
  | 'f' => some (Char.ofNat 12)
  | 'n' => some '\n'
  | 'r' => some '\r'
  | 't' => some '\t'
  | _ => none

/-- Hexadecimal digit value. -/
def hexVal (c : Char) : Option Nat :=
  if c.isDigit then some (c.toNat - '0'.toNat)
  else if 'a' ≤ c ∧ c ≤ 'f' then some (c.toNat - 'a'.toNat + 10)
  else if 'A' ≤ c ∧ c ≤ 'F' then some (c.toNat - 'A'.toNat + 10)
  else none

/-- Body of a JSON string after the opening quote: returns the decoded
characters and the rest after the closing quote. -/
def parseStringBody : List Char → Except String (List Char × List Char)
  | [] => .error "Unterminated string"
  | '"' :: rest => .ok ([], rest)
  | '\\' :: 'u' :: a :: b :: c :: d :: rest =>
      (match hexVal a, hexVal b, hexVal c, hexVal d with
       | some x, some y, some z, some w =>
          (parseStringBody rest).map
            (fun p => (Char.ofNat (((x * 16 + y) * 16 + z) * 16 + w) :: p.1, p.2))
       | _, _, _, _ => .error "Invalid \\uXXXX escape")
  | '\\' :: e :: rest =>
      (match jsonEscape e with
       | some c => (parseStringBody rest).map (fun p => (c :: p.1, p.2))
       | none => .error "Invalid \\escape")
  | c :: rest =>
      (parseStringBody rest).map (fun p => (c :: p.1, p.2))
termination_by cs => cs.length

/-- Fuel-free is impossible for the mutually recursive value parser, so each
parsing function takes fuel; every recursive call is preceded by the
consumption of at least one input character, so `parseJsonTop` supplies
enough fuel that it is never exhausted on its inputs. -/
def parseNumberTail (cs : List Char) : Except String (ℚ × List Char) :=
  let sign : ℚ × List Char :=
    match cs with
    | '-' :: rest => (-1, rest)
    | _ => (1, cs)
  let intDigits := sign.2.takeWhile Char.isDigit
  let afterInt := sign.2.dropWhile Char.isDigit
  if intDigits.isEmpty then .error "Expecting value"
  else
    let ipart : ℚ := (digitsToNat intDigits : ℚ)
    match afterInt with
    | '.' :: frest =>
        let fracDigits := frest.takeWhile Char.isDigit
        let afterFrac := frest.dropWhile Char.isDigit
        if fracDigits.isEmpty then .error "Expecting digits after decimal point"
        else
          .ok (sign.1 * (ipart + (digitsToNat fracDigits : ℚ)
            / ((10 : ℚ) ^ fracDigits.length)), afterFrac)
    | _ => .ok (sign.1 * ipart, afterInt)

mutual

/-- Parse one JSON value (after leading whitespace has been skipped). -/
def parseJsonValue : Nat → List Char → Except String (Json × List Char)
  | 0, _ => .error "Fuel exhausted"
  | _ + 1, [] => .error "Expecting value"
  | f + 1, c :: cs =>
      if c == '{' then
        match skipWs cs with
        | '}' :: rest => .ok (.obj [], rest)
        | other => (parseJsonMembers f other).map
            (fun p => (Json.obj p.1, p.2))
      else if c == '[' then
        match skipWs cs with
        | ']' :: rest => .ok (.arr [], rest)
        | other => (parseJsonElements f other).map
            (fun p => (Json.arr p.1, p.2))
      else if c == '"' then
        (parseStringBody cs).map (fun p => (Json.str (String.mk p.1), p.2))
      else if c == 't' then
        match cs with
        | 'r' :: 'u' :: 'e' :: rest => .ok (.bool true, rest)
        | _ => .error "Expecting value"
      else if c == 'f' then
        match cs with
        | 'a' :: 'l' :: 's' :: 'e' :: rest => .ok (.bool false, rest)
        | _ => .error "Expecting value"
      else if c == 'n' then
        match cs with
        | 'u' :: 'l' :: 'l' :: rest => .ok (.null, rest)
        | _ => .error "Expecting value"
      else if c == '-' || c.isDigit then
        (parseNumberTail (c :: cs)).map (fun p => (Json.num p.1, p.2))
      else .error "Expecting value"

/-- Parse `"key": value (, "key": value)*` then the closing brace. -/
def parseJsonMembers : Nat → List Char →
    Except String (List (String × Json) × List Char)
  | 0, _ => .error "Fuel exhausted"
  | f + 1, cs =>
      match cs with
      | '"' :: body =>
          match parseStringBody body with
          | .error e => .error e
          | .ok (key, afterKey) =>
              match skipWs afterKey with
              | ':' :: afterColon =>
                  match parseJsonValue f (skipWs afterColon) with
                  | .error e => .error e
                  | .ok (v, afterVal) =>
                      match skipWs afterVal with
                      | ',' :: afterComma =>
                          (parseJsonMembers f (skipWs afterComma)).map
                            (fun p => ((String.mk key, v) :: p.1, p.2))
                      | '}' :: rest => .ok ([(String.mk key, v)], rest)
                      | _ => .error "Expecting comma delimiter"
              | _ => .error "Expecting colon delimiter"
      | _ => .error "Expecting property name enclosed in double quotes"

/-- Parse `value (, value)*` then the closing bracket. -/
def parseJsonElements : Nat → List Char →
    Except String (List Json × List Char)
  | 0, _ => .error "Fuel exhausted"
  | f + 1, cs =>
      match parseJsonValue f cs with
      | .error e => .error e
      | .ok (v, afterVal) =>
          match skipWs afterVal with
          | ',' :: afterComma =>
              (parseJsonElements f (skipWs afterComma)).map
                (fun p => (v :: p.1, p.2))
          | ']' :: rest => .ok ([v], rest)
          | _ => .error "Expecting comma delimiter"

end

/-- `json.loads` on the brace-delimited snippet: parse one value and require
only trailing whitespace after it; the top value is an object whenever the
snippet starts with a brace.  Duplicate keys: `json.loads` keeps the last
occurrence, handled at lookup time by `pyGet`. -/
def jsonLoads (s : String) : Except String Json :=
  match parseJsonValue (2 * s.data.length + 8) (skipWs s.data) with
  | .error e => .error e
  | .ok (v, rest) =>
      if (skipWs rest).isEmpty then .ok v
      else .error "Extra data"

/-- The brace-delimited object fields, or a parse error. -/
def jsonParseObj (s : String) : Except String (List (String × Json)) :=
  match jsonLoads s with
  | .error e => .error e
  | .ok (.obj fields) => .ok fields
  | .ok _ => .error "Expecting object"

/-- The parse error of a snippet, if any (matches `jsonParseObj`). -/
def jsonParseErr (s : String) : Option String :=
  match jsonParseObj s with
  | .error e => some e
  | .ok _ => none

/-- `re.search(r'\{[\s\S]*\}', raw)`: the greedy match runs from the first
opening brace to the last closing brace, provided the latter comes after the
former; otherwise there is no match. -/
def findJson (s : String) : Option String :=
  match s.data.findIdx? (· == '{'), s.data.reverse.findIdx? (· == '}') with
  | some i, some jr =>
      let j := s.data.length - 1 - jr
      if i < j then some (String.mk ((s.data.drop i).take (j - i + 1)))
      else none
  | _, _ => none

/-- Python exceptions that the response parsers can raise on type-confused
payloads (propagated out of `_parse_response`, then swallowed by the blanket
handler in `extract_from_image`). -/
inductive PyErr
  | typeError (msg : String)
  | attributeError (msg : String)
deriving Repr

/-- `data.get(k)`: last occurrence wins (as `json.loads` keeps the last
duplicate key), absence is `None`. -/
def pyGet (data : List (String × Json)) (k : String) : Option Json :=
  data.foldl (fun acc kv => if kv.1 = k then some kv.2 else acc) none

/-- `data.get(k, dflt)`. -/
def pyGetD (data : List (String × Json)) (k : String) (dflt : Json) : Json :=
  (pyGet data k).getD dflt

/-- Python truthiness of a JSON value. -/
def jsonTruthy : Json → Bool
  | .null => false
  | .bool b => b
  | .num q => decide (q ≠ 0)
  | .str s => s ≠ ""
  | .arr l => !l.isEmpty
  | .obj f => !f.isEmpty

/-- Decimal digit characters of a natural number (enough fuel supplied). -/
def natDigits : Nat → Nat → List Char
  | 0, _ => []
  | f + 1, n =>
      if n < 10 then [Char.ofNat ('0'.toNat + n)]
      else natDigits f (n / 10) ++ [Char.ofNat ('0'.toNat + n % 10)]

/-- Display form of a rational, used only by `str()` on type-confused
fields (which never parse as dates downstream). -/
def ratRepr (q : ℚ) : String :=
  let sign := if q < 0 then "-" else ""
  let n := q.num.natAbs
  if q.den = 1 then sign ++ String.mk (natDigits (n + 1) n) ++ ".0"
  else sign ++ String.mk (natDigits (n + 1) n) ++ "/"
    ++ String.mk (natDigits (q.den + 1) q.den)

/-- Python `str()` of a JSON value (containers approximated; they never
survive the downstream parses that consume this). -/
def pyStr : Json → String
  | .null => "None"
  | .bool true => "True"
  | .bool false => "False"
  | .str s => s
  | .num q => ratRepr q
  | .arr _ => "[...]"
  | .obj _ => "\x7b...\x7d"

/-- How a JSON value lands in an `Optional[str]` model field: strings stay,
`null`/absent is `None`; other payload types are degraded to `None` here
(Python would store the foreign object as-is; no verified claim depends on
those fields for non-string payloads). -/
def jsonAsOptStr : Json → Option String
  | .str s => some s
  | _ => none

/-- `normalize_tracking_number` (`utils/helpers.py` lines 158-168) on a
string argument. -/
def normalizeTrackingNumber (tracking : String) : String :=
  if tracking = "" then ""
  else String.mk (tracking.data.filter Char.isAlphanum)

/-- `normalize_awb_number` (`utils/helpers.py` lines 171-196) on a string
argument. -/
def normalizeAwbNumber (awb : String) : String :=
  if awb = "" then ""
  else
    let clean := awb.data.filter Char.isAlphanum
    if clean.length = 11 ∧ clean.all Char.isDigit then
      String.mk (clean.take 3) ++ "-" ++ String.mk (clean.drop 3)
    else if '-' ∈ awb.data then
      match pySplit '-' awb with
      | [a, b] => pyStrip a ++ "-" ++ pyStrip b
      | _ => awb
    else awb

/-- `ExtractionConfidence(conf_str)` with `except ValueError` → MEDIUM;
unhashable payloads raise `TypeError` through the `except`. -/
def parseConfidenceField : Json → Except PyErr ExtractionConfidence
  | .str "HIGH" => .ok .HIGH
  | .str "MEDIUM" => .ok .MEDIUM
  | .str "LOW" => .ok .LOW
  | .str _ => .ok .MEDIUM
  | .null => .ok .MEDIUM
  | .bool _ => .ok .MEDIUM
  | .num _ => .ok .MEDIUM
  | .arr _ => .error (.typeError "unhashable type: list")
  | .obj _ => .error (.typeError "unhashable type: dict")

/-- `DocumentType(doc_type_str)` with `except ValueError` → UNKNOWN. -/
def parseDocTypeField : Json → Except PyErr DocumentType
  | .str "COURIER_LABEL" => .ok .COURIER_LABEL
  | .str "AIR_WAYBILL" => .ok .AIR_WAYBILL
  | .str "COMMERCIAL_INVOICE" => .ok .COMMERCIAL_INVOICE
  | .str "PACKING_LIST" => .ok .PACKING_LIST
  | .str "CARGO_PERMIT" => .ok .CARGO_PERMIT
  | .str "SHIPMENT_REPORT" => .ok .SHIPMENT_REPORT
  | .str "PURCHASE_ORDER" => .ok .PURCHASE_ORDER
  | .str "BILL_OF_LADING" => .ok .BILL_OF_LADING
  | .str "OTHER" => .ok .OTHER
  | .str "UNKNOWN" => .ok .UNKNOWN
  | .str _ => .ok .UNKNOWN
  | .null => .ok .UNKNOWN
  | .bool _ => .ok .UNKNOWN
  | .num _ => .ok .UNKNOWN
  | .arr _ => .error (.typeError "unhashable type: list")
  | .obj _ => .error (.typeError "unhashable type: dict")

/-- `TransportMode.from_string` on a (truthy) string. -/
def transportModeFromString (v : String) : TransportMode :=
  if v = "" then .UNKNOWN
  else
    match toUpperStr v with
    | "COURIER" => .COURIER
    | "AIR" => .AIR
    | "SEA" => .SEA
    | "TRUCK" => .TRUCK
    | "UNKNOWN" => .UNKNOWN
    | _ => .UNKNOWN

/-- `mode = TransportMode.from_string(mode_str) if mode_str else None`; a
truthy non-string raises `AttributeError` inside `from_string`
(`value.upper()`). -/
def parseModeField (v : Json) : Except PyErr (Option TransportMode) :=
  if jsonTruthy v then
    match v with
    | .str m => .ok (some (transportModeFromString m))
    | _ => .error (.attributeError "object has no attribute upper")
  else .ok none

/-- `parse_date_flexible(date_str) if date_str else None` on the JSON field:
the function itself applies `str(...)` and `.strip()`. -/
def parseDateField (v : Json) : Option PyDate :=
  if jsonTruthy v then parseDateStr (pyStrip (pyStr v)) else none

/-- `re.findall(r'[A-Z]{2}\d{3,4}', s)`: non-overlapping flight-number
matches, greedy on the fourth digit.  `Nat` counts characters still to skip
after a taken match. -/
def flightScan : Nat → List Char → List String
  | _, [] => []
  | Nat.succ k, _ :: cs => flightScan k cs
  | 0, a :: cs =>
      match cs with
      | b :: d1 :: d2 :: d3 :: rest =>
          if a.isUpper && b.isUpper && d1.isDigit && d2.isDigit && d3.isDigit then
            match rest with
            | d4 :: _ =>
                if d4.isDigit then
                  String.mk [a, b, d1, d2, d3, d4] :: flightScan 5 cs
                else String.mk [a, b, d1, d2, d3] :: flightScan 4 cs
            | [] => String.mk [a, b, d1, d2, d3] :: flightScan 4 cs
          else flightScan 0 cs
      | _ => []

/-- `re.findall(r'[A-Z]{2}\d{3,4}', s)` over a string. -/
def findFlightMatches (s : String) : List String :=
  flightScan 0 s.data

/-- Brand-code validation of `_parse_inbound_response`: a comma-separated
string is split/stripped/upper-cased; a list keeps only three-letter
alphabetic strings, upper-cased and deduplicated (`list(set(...))`, order
unspecified in Python, modelled keep-first); anything else becomes `[]`. -/
def parseBrandCodes : Json → List String
  | .str s =>
      ((pySplit ',' s).map pyStrip).filterMap
        (fun b => if b ≠ "" then some (toUpperStr b) else none)
  | .arr l =>
      dedupKeepFirst (l.filterMap (fun c =>
        match c with
        | .str cs =>
            if (pyStrip cs).length = 3 ∧ (pyStrip cs).data.all Char.isAlpha then
              some (toUpperStr (pyStrip cs))
            else none
        | _ => none))
  | _ => []

/-- `float(re.sub(r'[^\d.]', '', s))` of the invoice value-string branch. -/
def parseMoneyStr (s : String) : Option ℚ :=
  let cleaned := s.data.filter (fun c => c.isDigit || c == '.')
  if (cleaned.filter (· == '.')).length ≤ 1 ∧ (cleaned.any Char.isDigit) then
    match splitChar '.' cleaned with
    | [ip] => some ((digitsToNat ip : ℚ))
    | [ip, fp] => some ((digitsToNat ip : ℚ)
        + (digitsToNat fp : ℚ) / ((10 : ℚ) ^ fp.length))
    | _ => none
  else none

/-- `_parse_inbound_response` (`extractors/vision_extractor.py` lines
297-364).  String fields holding non-string JSON payloads are degraded to
`None` by `jsonAsOptStr`; the normalization calls raise `TypeError` on
non-iterable payloads exactly where Python would. -/
def parseInbound (data : List (String × Json)) (raw : String) (page : Int)
    (confidence : ExtractionConfidence) : Except PyErr ExtractionResult := do
  let doc_type ← parseDocTypeField (pyGetD data "document_type" (.str "UNKNOWN"))
  let mode ← parseModeField (pyGetD data "mode" .null)
  let ship_date := parseDateField (pyGetD data "ship_date" .null)
  let trackingVal := pyGetD data "tracking_or_awb" .null
  let tracking ←
    if jsonTruthy trackingVal ∧ mode = some .COURIER then
      match trackingVal with
      | .str t => .ok (some (normalizeTrackingNumber t))
      | _ => .error (.typeError "argument of type is not iterable")
    else if jsonTruthy trackingVal ∧ mode = some .AIR then
      match trackingVal with
      | .str t => .ok (some (normalizeAwbNumber t))
      | _ => .error (.typeError "argument of type is not iterable")
    else .ok (jsonAsOptStr trackingVal)
  let flight_numbers :=
    match pyGetD data "flight_numbers" (.arr []) with
    | .str fs => ((pySplit '/' fs).map pyStrip).filter (· ≠ "")
    | .arr l => l.filterMap jsonAsOptStr
    | _ => []
  let brand_codes := parseBrandCodes (pyGetD data "brand_codes" (.arr []))
  .ok { document_type := doc_type, confidence := confidence,
        tracking_or_awb := tracking, ship_date := ship_date, mode := mode,
        flight_numbers := flight_numbers,
        origin_country := jsonAsOptStr (pyGetD data "origin_country" .null),
        destination_country :=
          jsonAsOptStr (pyGetD data "destination_country" .null),
        incoterms := jsonAsOptStr (pyGetD data "incoterms" .null),
        currency := jsonAsOptStr (pyGetD data "currency" .null),
        total_value := (match pyGetD data "total_value" .null with
          | .num q => some q
          | _ => none),
        carrier := jsonAsOptStr (pyGetD data "carrier" .null),
        vessel_info := jsonAsOptStr (pyGetD data "vessel_info" .null),
        container_number :=
          jsonAsOptStr (pyGetD data "container_number" .null),
        brand_codes := brand_codes, page_number := page, raw_response := raw,
        notes := (jsonAsOptStr (pyGetD data "notes" (.str ""))).getD "",
        extraction_errors := [] }

/-- `_parse_outbound_awb_response` (lines 366-433). -/
def parseOutboundAwb (data : List (String × Json)) (raw : String) (page : Int)
    (confidence : ExtractionConfidence) : Except PyErr ExtractionResult := do
  let awbVal := pyGetD data "awb_number" .null
  let awb ←
    if jsonTruthy awbVal then
      match awbVal with
      | .str a => .ok (some (normalizeAwbNumber a))
      | _ => .error (.typeError "argument of type is not iterable")
    else .ok (jsonAsOptStr awbVal)
  let fnVal := pyGetD data "flight_number" .null
  let fiVal := pyGetD data "flight_info" .null
  let flightVal := if jsonTruthy fnVal then fnVal else fiVal
  let flight_numbers ←
    if jsonTruthy flightVal then
      let flight_matches := findFlightMatches (toUpperStr (pyStr flightVal))
      if flight_matches ≠ [] then .ok flight_matches
      else
        match flightVal with
        | .str fs => .ok (if pyStrip fs ≠ "" then [pyStrip fs] else [])
        | _ => .error (.attributeError "object has no attribute strip")
    else .ok ([] : List String)
  let ship_date := parseDateField (pyGetD data "flight_date" .null)
  let destination := jsonAsOptStr (pyGetD data "destination" .null)
  let descriptionVal := pyGetD data "description" (.str "")
  let notesVal := pyGetD data "notes" .null
  let notesPart ←
    if jsonTruthy notesVal then
      match notesVal with
      | .str n => .ok [n]
      | _ => .error (.typeError "sequence item: expected str instance")
    else .ok ([] : List String)
  let notes_parts := notesPart
    ++ (if jsonTruthy descriptionVal then
        ["Description: " ++ pyStr descriptionVal] else [])
    ++ (if jsonTruthy (pyGetD data "invoice_reference" .null) then
        ["Invoice: " ++ pyStr (pyGetD data "invoice_reference" .null)] else [])
  .ok { document_type := .AIR_WAYBILL, confidence := confidence,
        tracking_or_awb := awb, ship_date := ship_date, mode := some .AIR,
        flight_numbers := flight_numbers, origin_country := some "SINGAPORE",
        destination_country := destination,
        currency := jsonAsOptStr (pyGetD data "currency" .null),
        page_number := page, raw_response := raw,
        notes := (if notes_parts ≠ [] then strJoin " | " notes_parts else ""),
        extraction_errors := [] }

/-- `_parse_outbound_invoice_response` (lines 435-488). -/
def parseOutboundInvoice (data : List (String × Json)) (raw : String)
    (page : Int) (confidence : ExtractionConfidence) :
    Except PyErr ExtractionResult := do
  let ship_date := parseDateField (pyGetD data "date" .null)
  let total_value :=
    match pyGetD data "total_value" .null with
    | .str sv => parseMoneyStr sv
    | .num q => some q
    | _ => none
  let cityVal := pyGetD data "destination_city" .null
  let countryVal := pyGetD data "destination_country" .null
  let destination :=
    if jsonTruthy cityVal ∧ jsonTruthy countryVal then
      some (pyStr cityVal ++ ", " ++ pyStr countryVal)
    else if jsonTruthy countryVal then some (pyStr countryVal)
    else if jsonTruthy cityVal then some (pyStr cityVal)
    else none
  let notesVal := pyGetD data "notes" (.str "")
  let notesStr ←
    match notesVal with
    | .str n => Except.ok n
    | _ => .error (.typeError "can only concatenate str")
  .ok { document_type := .COMMERCIAL_INVOICE, confidence := confidence,
        tracking_or_awb := jsonAsOptStr (pyGetD data "invoice_number" .null),
        ship_date := ship_date, mode := some .AIR,
        origin_country := some "SINGAPORE", destination_country := destination,
        currency := jsonAsOptStr (pyGetD data "currency" .null),
        total_value := total_value, page_number := page, raw_response := raw,
        notes := notesStr ++ " | Description: "
          ++ pyStr (pyGetD data "description" (.str "N/A")),
        extraction_errors := [] }

/-- `VisionExtractor._parse_response` (`extractors/vision_extractor.py` lines
249-295): extract the brace-delimited JSON snippet, parse it, read the
confidence, and route on the prompt type.  The two parse-failure branches
return (never raise) an UNKNOWN/LOW `ExtractionResult` carrying the error
text and the raw response. -/
def parseResponse (raw_response : String) (page_number : Int)
    (prompt_type : String) : Except PyErr ExtractionResult :=
  match findJson raw_response with
  | none =>
      .ok { document_type := .UNKNOWN, confidence := .LOW,
            page_number := page_number, raw_response := raw_response,
            extraction_errors := ["No JSON found in response"] }
  | some snippet =>
      match jsonParseObj snippet with
      | .error e =>
          .ok { document_type := .UNKNOWN, confidence := .LOW,
                page_number := page_number, raw_response := raw_response,
                extraction_errors := ["JSON parse error: " ++ e] }
      | .ok data =>
          match parseConfidenceField (pyGetD data "confidence" (.str "MEDIUM")) with
          | .error err => .error err
          | .ok confidence =>
              if prompt_type = "outbound_awb" then
                parseOutboundAwb data raw_response page_number confidence
              else if prompt_type = "outbound_invoice" then
                parseOutboundInvoice data raw_response page_number confidence
              else
                parseInbound data raw_response page_number confidence

/-! ## Concrete instances used by counterexamples and witnesses -/

/-- Ledger record with total value 1000 for the reconciliation scenario. -/
def sapLedgerRecord : SAPPDOData :=
  { pdo_number := "2500444", brands := ["NST"], currency := "USD",
    total_value := 1000, country_splits := [("SIN", 600), ("MAL", 400)] }

/-- Ledger dictionary keyed by sheet name. -/
def sapLedger : List (String × SAPPDOData) := [("PDO2500444", sapLedgerRecord)]

/-- Shipment whose document value 1050 deviates from the ledger by 5%. -/
def ship1050 : InboundShipment :=
  { reference := "PDO2500444", currency := some "USD", total_value := some 1050 }

/-- Shipment whose document value 1200 deviates from the ledger by 20%. -/
def ship1200 : InboundShipment :=
  { reference := "PDO2500444", currency := some "USD", total_value := some 1200 }

/-- Shipment with a document value of 0.0 (falsy in Python). -/
def shipZeroValue : InboundShipment :=
  { reference := "PDO2500444", currency := some "USD", total_value := some 0 }

/-- Ledger record with an empty brand list and empty splits. -/
def sapEmptyBrands : SAPPDOData :=
  { pdo_number := "2500555", brands := [], currency := "EUR",
    total_value := 500, country_splits := [] }

/-- Ledger holding only `sapEmptyBrands`. -/
def sapLedgerEmpty : List (String × SAPPDOData) := [("PDO2500555", sapEmptyBrands)]

/-- Shipment carrying brands and splits of its own, reconciled against
`sapEmptyBrands` (no value/currency mismatch possible: currency matches and
document value is absent). -/
def shipKeepBrands : InboundShipment :=
  { reference := "PDO2500555", currency := some "EUR", total_value := none,
    brands := ["OLD"], country_splits := [("SIN", 500)] }

/-- Ledger record matching candidate "2500444" only by the last-5 fallback. -/
def pdoRecFuzzy : SAPPDOData :=
  { pdo_number := "9900444", brands := [], currency := "USD",
    total_value := 1, country_splits := [] }

/-- Ledger record matching candidate "2500444" exactly. -/
def pdoRecExact : SAPPDOData :=
  { pdo_number := "2500444", brands := [], currency := "USD",
    total_value := 1, country_splits := [] }

/-- Ledger in which the fuzzy-matching record precedes the exact one. -/
def pdoLedgerFuzzyFirst : List (String × SAPPDOData) :=
  [("SheetA", pdoRecFuzzy), ("SheetB", pdoRecExact)]

/-- Ledger record with a non-empty splits map that is off by 1 from the
total. -/
def pdoBadSplits : SAPPDOData :=
  { pdo_number := "2500444", brands := ["NST"], currency := "USD",
    total_value := 1000, country_splits := [("SIN", 600), ("MAL", 399)] }

/-- Ledger record whose splits sum exactly to the total. -/
def pdoGoodSplits : SAPPDOData :=
  { pdo_number := "2500444", brands := ["NST"], currency := "USD",
    total_value := 1000, country_splits := [("SIN", 600), ("MAL", 400)] }

/-- Ledger record with an empty splits map but a non-zero total. -/
def pdoNoSplits : SAPPDOData :=
  { pdo_number := "2500444", brands := ["NST"], currency := "USD",
    total_value := 100, country_splits := [] }

/-- Minimal inbound shipment for the validation frame claim. -/
def bareShipment : InboundShipment := { reference := "PDO2500444" }

end MSIG

/-! # Theorems -/

namespace MSIG

theorem updMeta_eq (acc : Aggregated) (r : ExtractionResult) :
    updMeta acc r = { acc with
      raw_responses := acc.raw_responses ++ [r.raw_response],
      errors := acc.errors ++ r.extraction_errors } := rfl

theorem updConfidence_eq (acc : Aggregated) (r : ExtractionResult) :
    updConfidence acc r = { acc with confidence :=
      if (pyStrLt r.confidence.value acc.confidence.value) then r.confidence
      else acc.confidence } := by
  unfold updConfidence
  split <;> rfl

theorem updIncoterms_eq (acc : Aggregated) (r : ExtractionResult) :
    updIncoterms acc r = { acc with incoterms :=
      (match effStr r.incoterms with
       | some v => if acc.incoterms = none then some v else acc.incoterms
       | none => acc.incoterms) } := by
  unfold updIncoterms
  cases effStr r.incoterms
  · rfl
  · simp only
    split <;> rfl

theorem updFlights_eq (acc : Aggregated) (r : ExtractionResult) :
    updFlights acc r = { acc with flight_numbers :=
      if r.flight_numbers ≠ [] then acc.flight_numbers ++ r.flight_numbers
      else acc.flight_numbers } := by
  unfold updFlights
  split <;> rfl

theorem updVessel_eq (acc : Aggregated) (r : ExtractionResult) :
    updVessel acc r = { acc with vessel_info :=
      (match effStr r.vessel_info with
       | some v => if acc.vessel_info = none then some v else acc.vessel_info
       | none => acc.vessel_info) } := by
  unfold updVessel
  cases effStr r.vessel_info
  · rfl
  · simp only
    split <;> rfl

theorem updContainer_eq (acc : Aggregated) (r : ExtractionResult) :
    updContainer acc r = { acc with container_number :=
      (match effStr r.container_number with
       | some v => if acc.container_number = none then some v
                   else acc.container_number
       | none => acc.container_number) } := by
  unfold updContainer
  cases effStr r.container_number
  · rfl
  · simp only
    split <;> rfl

theorem updBrands_eq (acc : Aggregated) (r : ExtractionResult) :
    updBrands acc r = { acc with brand_codes :=
      if r.brand_codes ≠ [] ∧ r.document_type = .PURCHASE_ORDER then
        acc.brand_codes ++ r.brand_codes
      else acc.brand_codes } := by
  unfold updBrands
  split <;> rfl

theorem aggregateStep_tracking (acc : Aggregated) (r : ExtractionResult) :
    (aggregateStep acc r).tracking_or_awb
      = scalarWrite (isPriorityPage r) acc.tracking_or_awb
          (effStr r.tracking_or_awb) := by
  simp [aggregateStep, updBrands_eq, updContainer_eq, updVessel_eq,
    updFlights_eq, updIncoterms_eq, updOrigin, updCarrier, updMode,
    updShipDate, updTracking, updConfidence_eq, updMeta_eq]

theorem aggregateStep_ship_date (acc : Aggregated) (r : ExtractionResult) :
    (aggregateStep acc r).ship_date
      = scalarWrite (isPriorityPage r) acc.ship_date r.ship_date := by
  simp [aggregateStep, updBrands_eq, updContainer_eq, updVessel_eq,
    updFlights_eq, updIncoterms_eq, updOrigin, updCarrier, updMode,
    updShipDate, updTracking, updConfidence_eq, updMeta_eq]

theorem aggregateStep_mode (acc : Aggregated) (r : ExtractionResult) :
    (aggregateStep acc r).mode
      = scalarWrite (isPriorityPage r) acc.mode (effMode r) := by
  simp [aggregateStep, updBrands_eq, updContainer_eq, updVessel_eq,
    updFlights_eq, updIncoterms_eq, updOrigin, updCarrier, updMode,
    updShipDate, updTracking, updConfidence_eq, updMeta_eq]

theorem aggregateStep_carrier (acc : Aggregated) (r : ExtractionResult) :
    (aggregateStep acc r).carrier
      = scalarWrite (isPriorityPage r) acc.carrier (effStr r.carrier) := by
  simp [aggregateStep, updBrands_eq, updContainer_eq, updVessel_eq,
    updFlights_eq, updIncoterms_eq, updOrigin, updCarrier, updMode,
    updShipDate, updTracking, updConfidence_eq, updMeta_eq]

theorem aggregateStep_origin (acc : Aggregated) (r : ExtractionResult) :
    (aggregateStep acc r).origin_country
      = scalarWrite (isPriorityPage r) acc.origin_country
          (effStr r.origin_country) := by
  simp [aggregateStep, updBrands_eq, updContainer_eq, updVessel_eq,
    updFlights_eq, updIncoterms_eq, updOrigin, updCarrier, updMode,
    updShipDate, updTracking, updConfidence_eq, updMeta_eq]

theorem aggregateStep_confidence (acc : Aggregated) (r : ExtractionResult) :
    (aggregateStep acc r).confidence
      = (if (pyStrLt r.confidence.value acc.confidence.value) then r.confidence
         else acc.confidence) := by
  simp [aggregateStep, updBrands_eq, updContainer_eq, updVessel_eq,
    updFlights_eq, updIncoterms_eq, updOrigin, updCarrier, updMode,
    updShipDate, updTracking, updConfidence_eq, updMeta_eq]

theorem lastPriorityValue_aux (xs : List (FieldEntry α)) (acc : Option α) :
    xs.foldl (fun acc x => match x with | (true, some v) => some v | _ => acc) acc
      = (match lastPriorityValue xs with | some v => some v | none => acc) := by
  induction xs generalizing acc with
  | nil => rfl
  | cons x xs ih =>
    rcases x with ⟨p, v⟩
    rw [List.foldl_cons]
    rw [show lastPriorityValue ((p, v) :: xs)
          = xs.foldl
              (fun acc x => match x with | (true, some v) => some v | _ => acc)
              (match (p, v) with | (true, some w) => some w | _ => none)
        from rfl]
    rw [ih, ih]
    cases h : lastPriorityValue xs <;> cases p <;> cases v <;> simp

theorem lastPriorityValue_cons (x : FieldEntry α) (xs : List (FieldEntry α)) :
    lastPriorityValue (x :: xs)
      = (match lastPriorityValue xs with
         | some v => some v
         | none => (match x with | (true, some v) => some v | _ => none)) := by
  rw [show lastPriorityValue (x :: xs)
        = xs.foldl
            (fun acc y => match y with | (true, some v) => some v | _ => acc)
            (match x with | (true, some w) => some w | _ => none)
      from rfl]
  exact lastPriorityValue_aux xs _

theorem resolveScalar_fold (xs : List (FieldEntry α)) (cur : Option α) :
    xs.foldl (fun c x => scalarWrite x.1 c x.2) cur
      = (match lastPriorityValue xs with
         | some v => some v
         | none => (match cur with | some a => some a | none => firstValue xs)) := by
  induction xs generalizing cur with
  | nil => cases cur <;> simp [lastPriorityValue, firstValue]
  | cons x xs ih =>
    rcases x with ⟨p, v⟩
    rw [List.foldl_cons, ih, lastPriorityValue_cons]
    cases h : lastPriorityValue xs <;> cases p <;> cases v <;> cases cur <;>
      simp [scalarWrite, firstValue, List.filterMap_cons]

theorem foldl_aggregateStep_tracking (rs : List ExtractionResult)
    (acc : Aggregated) :
    (rs.foldl aggregateStep acc).tracking_or_awb
      = (rs.map fun r => (isPriorityPage r, effStr r.tracking_or_awb)).foldl
          (fun c x => scalarWrite x.1 c x.2) acc.tracking_or_awb := by
  induction rs generalizing acc with
  | nil => rfl
  | cons r rs ih =>
    rw [List.foldl_cons, List.map_cons, List.foldl_cons, ih,
      aggregateStep_tracking]

theorem foldl_aggregateStep_ship_date (rs : List ExtractionResult)
    (acc : Aggregated) :
    (rs.foldl aggregateStep acc).ship_date
      = (rs.map fun r => (isPriorityPage r, r.ship_date)).foldl
          (fun c x => scalarWrite x.1 c x.2) acc.ship_date := by
  induction rs generalizing acc with
  | nil => rfl
  | cons r rs ih =>
    rw [List.foldl_cons, List.map_cons, List.foldl_cons, ih,
      aggregateStep_ship_date]

theorem foldl_aggregateStep_mode (rs : List ExtractionResult)
    (acc : Aggregated) :
    (rs.foldl aggregateStep acc).mode
      = (rs.map fun r => (isPriorityPage r, effMode r)).foldl
          (fun c x => scalarWrite x.1 c x.2) acc.mode := by
  induction rs generalizing acc with
  | nil => rfl
  | cons r rs ih =>
    rw [List.foldl_cons, List.map_cons, List.foldl_cons, ih, aggregateStep_mode]

theorem foldl_aggregateStep_carrier (rs : List ExtractionResult)
    (acc : Aggregated) :
    (rs.foldl aggregateStep acc).carrier
      = (rs.map fun r => (isPriorityPage r, effStr r.carrier)).foldl
          (fun c x => scalarWrite x.1 c x.2) acc.carrier := by
  induction rs generalizing acc with
  | nil => rfl
  | cons r rs ih =>
    rw [List.foldl_cons, List.map_cons, List.foldl_cons, ih,
      aggregateStep_carrier]

theorem foldl_aggregateStep_origin (rs : List ExtractionResult)
    (acc : Aggregated) :
    (rs.foldl aggregateStep acc).origin_country
      = (rs.map fun r => (isPriorityPage r, effStr r.origin_country)).foldl
          (fun c x => scalarWrite x.1 c x.2) acc.origin_country := by
  induction rs generalizing acc with
  | nil => rfl
  | cons r rs ih =>
    rw [List.foldl_cons, List.map_cons, List.foldl_cons, ih,
      aggregateStep_origin]

theorem aggregatePost_scalars (acc : Aggregated) :
    (aggregatePost acc).tracking_or_awb = acc.tracking_or_awb
    ∧ (aggregatePost acc).ship_date = acc.ship_date
    ∧ (aggregatePost acc).mode = acc.mode
    ∧ (aggregatePost acc).carrier = acc.carrier
    ∧ (aggregatePost acc).origin_country = acc.origin_country
    ∧ (aggregatePost acc).confidence = acc.confidence := by
  refine ⟨?_, ?_, ?_, ?_, ?_, ?_⟩ <;>
    (simp only [aggregatePost]; repeat' split) <;> rfl

theorem foldl_conf_from_high (rs : List ExtractionResult) (acc : Aggregated)
    (h : acc.confidence = .HIGH) :
    (rs.foldl aggregateStep acc).confidence = .HIGH := by
  induction rs generalizing acc with
  | nil => exact h
  | cons r rs ih =>
    rw [List.foldl_cons]
    exact ih _ (by rw [aggregateStep_confidence, h]; cases r.confidence <;> decide)

theorem foldl_conf_from_low (rs : List ExtractionResult) (acc : Aggregated)
    (h : acc.confidence = .LOW) :
    (rs.foldl aggregateStep acc).confidence
      = (if rs.any (fun r => r.confidence = .HIGH) then .HIGH else .LOW) := by
  induction rs generalizing acc with
  | nil => simp [h]
  | cons r rs ih =>
    rw [List.foldl_cons, List.any_cons]
    cases hr : r.confidence with
    | HIGH =>
        rw [foldl_conf_from_high rs _
          (by rw [aggregateStep_confidence, h, hr]; decide)]
        simp [hr]
    | MEDIUM =>
        rw [ih _ (by rw [aggregateStep_confidence, h, hr]; decide)]
        simp [hr]
    | LOW =>
        rw [ih _ (by rw [aggregateStep_confidence, h, hr]; decide)]
        simp [hr]

/-- C1 (amended): for every ordered sequence of page results and each
priority-governed scalar field (tracking/AWB, ship date, transport mode,
carrier, origin country), the aggregated value is the value of the *last*
priority-class page that offers a truthy value for the field; only when no
priority-class page offers one does the first offered value (necessarily from
a non-priority page, written when the field was still unset) stick.  In
particular a priority-class value beats non-priority values regardless of
arrival order, and a non-priority value is written only when the field is
unset — but among priority-class pages the last, not the first, wins. -/
theorem aggregate_inbound_priority_merge
    (results : List ExtractionResult) (filename : String) :
    (aggregateInbound results filename).tracking_or_awb
        = priorityResolve (fieldEntries (fun r => effStr r.tracking_or_awb) results)
    ∧ (aggregateInbound results filename).ship_date
        = priorityResolve (fieldEntries (fun r => r.ship_date) results)
    ∧ (aggregateInbound results filename).mode
        = priorityResolve (fieldEntries effMode results)
    ∧ (aggregateInbound results filename).carrier
        = priorityResolve (fieldEntries (fun r => effStr r.carrier) results)
    ∧ (aggregateInbound results filename).origin_country
        = priorityResolve (fieldEntries (fun r => effStr r.origin_country) results) := by
  have hpost := aggregatePost_scalars (results.foldl aggregateStep {})
  refine ⟨?_, ?_, ?_, ?_, ?_⟩
  · rw [show (aggregateInbound results filename)
        = aggregatePost (results.foldl aggregateStep {}) from rfl,
      hpost.1, foldl_aggregateStep_tracking, resolveScalar_fold]
    cases lastPriorityValue (fieldEntries (fun r => effStr r.tracking_or_awb) results) <;>
      simp [priorityResolve, fieldEntries]
  · rw [show (aggregateInbound results filename)
        = aggregatePost (results.foldl aggregateStep {}) from rfl,
      hpost.2.1, foldl_aggregateStep_ship_date, resolveScalar_fold]
    cases lastPriorityValue (fieldEntries (fun r => r.ship_date) results) <;>
      simp [priorityResolve, fieldEntries]
  · rw [show (aggregateInbound results filename)
        = aggregatePost (results.foldl aggregateStep {}) from rfl,
      hpost.2.2.1, foldl_aggregateStep_mode, resolveScalar_fold]
    cases lastPriorityValue (fieldEntries effMode results) <;>
      simp [priorityResolve, fieldEntries]
  · rw [show (aggregateInbound results filename)
        = aggregatePost (results.foldl aggregateStep {}) from rfl,
      hpost.2.2.2.1, foldl_aggregateStep_carrier, resolveScalar_fold]
    cases lastPriorityValue (fieldEntries (fun r => effStr r.carrier) results) <;>
      simp [priorityResolve, fieldEntries]
  · rw [show (aggregateInbound results filename)
        = aggregatePost (results.foldl aggregateStep {}) from rfl,
      hpost.2.2.2.2.1, foldl_aggregateStep_origin, resolveScalar_fold]
    cases lastPriorityValue (fieldEntries (fun r => effStr r.origin_country) results) <;>
      simp [priorityResolve, fieldEntries]

/-- C1 (counterexample): two priority-class courier-label pages supply
conflicting tracking numbers; the aggregate keeps the *second* page's value,
so the claimed "first priority-class non-null value wins, no later
priority-class page overwrites it" is false on the code. -/
theorem aggregate_inbound_second_priority_wins :
    (aggregateInbound [prioPageA, prioPageB] "f.pdf").tracking_or_awb
      = some "999911112222"
    ∧ prioPageA.tracking_or_awb = some "884602373339"
    ∧ prioPageB.tracking_or_awb = some "999911112222"
    ∧ (some "999911112222" : Option String) ≠ some "884602373339" := by
  exact ⟨by decide, rfl, rfl, by decide⟩

/-- C2 (amended): the aggregate confidence is not the minimum under
HIGH > MEDIUM > LOW.  Because the source compares the enum *value strings*
with Python `<` starting from LOW ("HIGH" < "LOW" < "MEDIUM"
lexicographically), the aggregate is HIGH as soon as any page is HIGH, and
LOW otherwise — a MEDIUM-only page list aggregates to LOW. -/
theorem aggregate_inbound_confidence_characterisation
    (results : List ExtractionResult) (filename : String) :
    (aggregateInbound results filename).confidence
      = (if results.any (fun r => r.confidence = .HIGH) then .HIGH else .LOW) := by
  rw [show (aggregateInbound results filename)
      = aggregatePost (results.foldl aggregateStep {}) from rfl,
    (aggregatePost_scalars (results.foldl aggregateStep {})).2.2.2.2.2,
    foldl_conf_from_low results _ rfl]

/-- C2 (counterexample): a single MEDIUM page aggregates to LOW, not to the
claimed lowest page confidence MEDIUM; and a HIGH page followed by a LOW page
aggregates to HIGH, not LOW. -/
theorem aggregate_inbound_confidence_not_lowest :
    (aggregateInbound [mediumPage] "f.pdf").confidence = .LOW
    ∧ specLowestConfidence [mediumPage] = .MEDIUM
    ∧ (aggregateInbound [highPage, lowPage] "f.pdf").confidence = .HIGH
    ∧ specLowestConfidence [highPage, lowPage] = .LOW
    ∧ ExtractionConfidence.LOW ≠ .MEDIUM
    ∧ ExtractionConfidence.HIGH ≠ .LOW := by
  exact ⟨by decide, by decide, by decide, by decide, by decide, by decide⟩

/-- C8 (counterexample): a ledger record with an *empty* splits map and a
non-zero total deviates by more than 0.01 yet validates with no issue at all,
because the source guards the check with `if self.country_splits:`. -/
theorem sap_validate_empty_splits_unchecked :
    pdoNoSplits.validate = []
    ∧ |((pdoNoSplits.country_splits.map Prod.snd).sum) - pdoNoSplits.total_value|
        > 1/100 := by
  constructor
  · decide
  · norm_num [pdoNoSplits, abs]

/-- C8 (amended): for ledger records with a *non-empty* splits map, a splits
sum deviating from the total by more than 0.01 yields at least one
error-severity issue; and whenever the splits sum exactly equals the total,
no error-severity issue about the splits is returned. -/
theorem sap_validate_splits_invariant (d : SAPPDOData) :
    (d.country_splits ≠ [] →
      |((d.country_splits.map Prod.snd).sum) - d.total_value| > 1/100 →
      ∃ i ∈ d.validate, i.severity = .ERROR)
    ∧ (((d.country_splits.map Prod.snd).sum) = d.total_value →
      ∀ i ∈ d.validate, ¬ (i.severity = .ERROR ∧ i.field = "country_splits")) := by
  constructor
  · intro hne hdev
    refine ⟨{ severity := .ERROR, field := "country_splits",
              message := "Splits do not sum to total",
              suggestion := some "Check SAP export for missing rows" }, ?_, rfl⟩
    simp only [SAPPDOData.validate, List.nil_append, List.mem_append]
    left
    rw [if_pos hne, if_pos hdev]
    simp
  · intro heq i hi hbad
    obtain ⟨hsev, hfield⟩ := hbad
    simp only [SAPPDOData.validate, List.nil_append, List.mem_append] at hi
    rcases hi with hi | hi
    · by_cases hne : d.country_splits ≠ []
      · rw [if_pos hne, heq, sub_self, abs_zero] at hi
        norm_num at hi
      · rw [if_neg hne] at hi
        simp at hi
    · by_cases hb : d.brands = []
      · rw [if_pos hb] at hi
        simp at hi
        rw [hi] at hsev
        exact absurd hsev (by decide)
      · rw [if_neg hb] at hi
        simp at hi

/-- Deviation fact for the witness record `pdoBadSplits`. -/
theorem pdoBadSplits_deviation :
    |((pdoBadSplits.country_splits.map Prod.snd).sum) - pdoBadSplits.total_value|
      > 1/100 := by
  norm_num [pdoBadSplits, abs]

/-- Exactness fact for the witness record `pdoGoodSplits`. -/
theorem pdoGoodSplits_exact :
    ((pdoGoodSplits.country_splits.map Prod.snd).sum) = pdoGoodSplits.total_value := by
  norm_num [pdoGoodSplits]

/-- Witness for the amended C8 theorem at two concrete ledger records. -/
theorem sap_validate_splits_invariant_witness :
    (∃ i ∈ pdoBadSplits.validate, i.severity = .ERROR)
    ∧ (∀ i ∈ pdoGoodSplits.validate,
        ¬ (i.severity = .ERROR ∧ i.field = "country_splits")) :=
  ⟨(sap_validate_splits_invariant pdoBadSplits).1 (by decide) pdoBadSplits_deviation,
   (sap_validate_splits_invariant pdoGoodSplits).2 pdoGoodSplits_exact⟩

/-- C9 (counterexample): calling `validate()` on a fresh inbound shipment
changes the record — the computed warnings are stored into its
`validation_issues` field, so the record does not keep all fields unchanged
and the issues *are* persisted as state. -/
theorem inbound_validate_persists_issues :
    bareShipment.validation_issues = []
    ∧ (bareShipment.validateRun).2.validation_issues ≠ []
    ∧ (bareShipment.validateRun).2.validation_issues
        ≠ bareShipment.validation_issues := by
  exact ⟨rfl, by decide, by decide⟩

/-- C9 (amended): for both shipment variants, `validate()` computes its issue
list purely from the data fields — the result does not depend on the
previously stored `validation_issues` — and leaves every field except
`validation_issues` unchanged; but it does overwrite `validation_issues` with
the freshly computed list (`self.validation_issues = issues`). -/
theorem validate_pure_in_data_fields_but_stores_issues
    (s : InboundShipment) (t : OutboundShipment)
    (v w : List ValidationIssue) :
    (s.validateRun.2 = { s with validation_issues := s.validateRun.1 })
    ∧ (({ s with validation_issues := v }).validateRun.1 = s.validateRun.1)
    ∧ (t.validateRun.2 = { t with validation_issues := t.validateRun.1 })
    ∧ (({ t with validation_issues := w }).validateRun.1 = t.validateRun.1) :=
  ⟨rfl, rfl, rfl, rfl⟩

/-- C6 (amended): per candidate, the ledger dictionary is scanned in storage
order and the *first record* for which any of the three methods (exact,
substring-in-key, last-five) succeeds is returned — the tier order applies
only within a single record, so an earlier record matched by a weaker method
preempts a later record with an exact match. -/
theorem matchCandidate_first_matching_record (p : String)
    (data : List (String × SAPPDOData)) :
    matchCandidate p data
      = (data.find? (fun e => decide (recordMatchProp p e))).map
          (fun e => (p, e.2)) := by
  induction data with
  | nil => rfl
  | cons e rest ih =>
    rcases e with ⟨sheet, d⟩
    simp only [matchCandidate, List.find?_cons]
    by_cases h1 : d.pdo_number = p
    · simp [recordMatchProp, h1]
    · by_cases h2 : pyInStr p sheet = true
      · simp [recordMatchProp, h1, h2]
      · by_cases h3 : 5 ≤ p.length ∧ 5 ≤ d.pdo_number.length
            ∧ lastFive p = lastFive d.pdo_number
        · obtain ⟨h3a, h3b, h3c⟩ := h3
          simp [recordMatchProp, h1, h2, h3a, h3b, h3c]
        · have hrm : decide (recordMatchProp p (sheet, d)) = false := by
            simp only [decide_eq_false_iff_not, recordMatchProp]
            push_neg
            exact ⟨h1, h2, fun ha hb hc => h3 ⟨ha, hb, hc⟩⟩
          rw [if_neg h1, if_neg h2, if_neg h3, hrm, ih]

/-- C6 (counterexample): candidate "2500444" against a ledger whose first
record matches only by the last-five fallback while the second record is an
exact `pdo_number` match: the fuzzy first record wins, so an exactly-equal
record does not always win. -/
theorem matchCandidate_fuzzy_preempts_exact :
    matchCandidate "2500444" pdoLedgerFuzzyFirst = some ("2500444", pdoRecFuzzy)
    ∧ pdoRecFuzzy.pdo_number = "9900444"
    ∧ pdoRecExact.pdo_number = "2500444"
    ∧ ("SheetB", pdoRecExact) ∈ pdoLedgerFuzzyFirst
    ∧ ("9900444" : String) ≠ "2500444" := by
  exact ⟨by decide, rfl, rfl, by decide, by decide⟩

theorem currencyCheckApply_keeps (ap : Bool) (sh : InboundShipment)
    (m : SAPPDOData) :
    (currencyCheckApply ap sh m).total_value = sh.total_value
    ∧ (currencyCheckApply ap sh m).brands = sh.brands
    ∧ (currencyCheckApply ap sh m).country_splits = sh.country_splits := by
  unfold currencyCheckApply
  refine ⟨?_, ?_, ?_⟩ <;> split <;> rfl

theorem valueCheckApply_keeps (tol : ℚ) (ap : Bool) (sh : InboundShipment)
    (m : SAPPDOData) :
    (valueCheckApply tol ap sh m).currency = sh.currency
    ∧ (valueCheckApply tol ap sh m).brands = sh.brands
    ∧ (valueCheckApply tol ap sh m).country_splits = sh.country_splits := by
  unfold valueCheckApply
  refine ⟨?_, ?_, ?_⟩ <;> split <;> rfl

theorem autoApplyBlock_true (sh : InboundShipment) (m : SAPPDOData) :
    (autoApplyBlock true sh m).currency = some m.currency
    ∧ (autoApplyBlock true sh m).total_value = some m.total_value
    ∧ (autoApplyBlock true sh m).brands
        = (if m.brands = [] then sh.brands else m.brands)
    ∧ (autoApplyBlock true sh m).country_splits
        = (if m.country_splits = [] then sh.country_splits
           else m.country_splits) := by
  simp only [autoApplyBlock, if_true]
  refine ⟨?_, ?_, ?_, ?_⟩ <;>
    (repeat' split) <;> simp_all

theorem reconcileInbound_matched (tol : ℚ) (ap : Bool) (sh : InboundShipment)
    (sap : List (String × SAPPDOData)) (m : SAPPDOData)
    (hm : findMatchingSAP sh.reference sap = some m) :
    reconcileInbound tol ap sh sap
      = ({ reference := sh.reference, matched_pdo := some m.pdo_number,
           issues := currencyCheckIssues sh m
             ++ valueCheckIssues tol (currencyCheckApply ap sh m) m,
           sap_used := true },
         autoApplyBlock ap
           (valueCheckApply tol ap (currencyCheckApply ap sh m) m) m) := by
  simp only [reconcileInbound, hm]

theorem reconcile_autoapply_fields (tol : ℚ) (sh : InboundShipment)
    (sap : List (String × SAPPDOData)) (m : SAPPDOData)
    (hm : findMatchingSAP sh.reference sap = some m) :
    ((reconcileInbound tol true sh sap).2.currency = some m.currency)
    ∧ ((reconcileInbound tol true sh sap).2.total_value = some m.total_value)
    ∧ ((reconcileInbound tol true sh sap).2.brands
        = (if m.brands = [] then sh.brands else m.brands))
    ∧ ((reconcileInbound tol true sh sap).2.country_splits
        = (if m.country_splits = [] then sh.country_splits
           else m.country_splits)) := by
  rw [reconcileInbound_matched tol true sh sap m hm]
  have hb := autoApplyBlock_true
    (valueCheckApply tol true (currencyCheckApply true sh m) m) m
  have hv := valueCheckApply_keeps tol true (currencyCheckApply true sh m) m
  have hc := currencyCheckApply_keeps true sh m
  refine ⟨hb.1, hb.2.1, ?_, ?_⟩
  · rw [hb.2.2.1, hv.2.1, hc.2.1]
  · rw [hb.2.2.2, hv.2.2, hc.2.2]

theorem currencyCheckIssues_no_value_issue (sh : InboundShipment)
    (m : SAPPDOData) :
    (currencyCheckIssues sh m).filter
        (fun i => i.issue_type == ReconciliationType.VALUE_MISMATCH) = [] := by
  unfold currencyCheckIssues
  split <;> simp

theorem valueCheckIssues_all_value (tol : ℚ) (sh : InboundShipment)
    (m : SAPPDOData) :
    (valueCheckIssues tol sh m).filter
        (fun i => i.issue_type == ReconciliationType.VALUE_MISMATCH)
      = valueCheckIssues tol sh m := by
  unfold valueCheckIssues
  cases sh.total_value with
  | none => simp
  | some sv =>
      simp only
      split <;> simp [valueIssueFor]

theorem reconcile_value_filter (tol : ℚ) (ap : Bool) (sh : InboundShipment)
    (sap : List (String × SAPPDOData)) (m : SAPPDOData) (sv : ℚ)
    (hm : findMatchingSAP sh.reference sap = some m)
    (hv : sh.total_value = some sv) (hsv : sv ≠ 0) (hmv : m.total_value ≠ 0) :
    ((reconcileInbound tol ap sh sap).1.issues.filter
        (fun i => i.issue_type == ReconciliationType.VALUE_MISMATCH))
      = (if valueMismatchPct sv m.total_value > tol then [valueIssueFor m sv]
         else []) := by
  rw [reconcileInbound_matched tol ap sh sap m hm]
  simp only [List.filter_append, currencyCheckIssues_no_value_issue,
    valueCheckIssues_all_value, List.nil_append]
  unfold valueCheckIssues
  rw [(currencyCheckApply_keeps ap sh m).1, hv]
  simp only
  by_cases hgt : valueMismatchPct sv m.total_value > tol
  · rw [if_pos ⟨hsv, hmv, hgt⟩, if_pos hgt]
  · rw [if_neg (fun h => hgt h.2.2), if_neg hgt]

/-- Deviation facts for the reconciliation scenario values. -/
theorem pct_1050_within : ¬ (valueMismatchPct 1050 1000 > 5) := by
  norm_num [valueMismatchPct, abs]

theorem pct_1200_exceeds : valueMismatchPct 1200 1000 > 5 := by
  norm_num [valueMismatchPct, abs]

theorem pct_1200_not_under_10 : ¬ (valueMismatchPct 1200 1000 < 10) := by
  norm_num [valueMismatchPct, abs]

/-- C4 (confirmed): for a matched reconciliation with truthy document and
ledger values, a value-mismatch issue is produced exactly when
|doc − ledger| / ledger * 100 strictly exceeds the tolerance; its severity is
INFO when the deviation is strictly under 10 and WARNING otherwise, and it is
always auto-resolvable (all packed into `valueIssueFor`).  Concretely:
1050 vs 1000 at 5% tolerance yields no value-mismatch issue; 1200 vs 1000
yields exactly one WARNING issue, and with auto-apply the shipment value
becomes 1000. -/
theorem reconcile_value_mismatch_rule (tol : ℚ) (ap : Bool)
    (sh : InboundShipment) (sap : List (String × SAPPDOData)) (m : SAPPDOData)
    (sv : ℚ)
    (hm : findMatchingSAP sh.reference sap = some m)
    (hv : sh.total_value = some sv) (hsv : sv ≠ 0) (hmv : m.total_value ≠ 0) :
    (((reconcileInbound tol ap sh sap).1.issues.filter
        (fun i => i.issue_type == ReconciliationType.VALUE_MISMATCH))
      = (if valueMismatchPct sv m.total_value > tol then [valueIssueFor m sv]
         else []))
    ∧ (valueIssueFor m sv).severity
        = (if valueMismatchPct sv m.total_value < 10 then .INFO else .WARNING)
    ∧ (valueIssueFor m sv).auto_resolvable = true
    ∧ ((reconcileInbound 5 true ship1050 sapLedger).1.issues.filter
        (fun i => i.issue_type == ReconciliationType.VALUE_MISMATCH)) = []
    ∧ ((reconcileInbound 5 true ship1200 sapLedger).1.issues.filter
        (fun i => i.issue_type == ReconciliationType.VALUE_MISMATCH))
      = [valueIssueFor sapLedgerRecord 1200]
    ∧ (valueIssueFor sapLedgerRecord 1200).severity = .WARNING
    ∧ (reconcileInbound 5 true ship1200 sapLedger).2.total_value = some 1000 := by
  refine ⟨reconcile_value_filter tol ap sh sap m sv hm hv hsv hmv, rfl, rfl,
    ?_, ?_, ?_, ?_⟩
  · rw [reconcile_value_filter 5 true ship1050 sapLedger sapLedgerRecord 1050
      (by decide) rfl (by decide) (by decide)]
    exact if_neg pct_1050_within
  · rw [reconcile_value_filter 5 true ship1200 sapLedger sapLedgerRecord 1200
      (by decide) rfl (by decide) (by decide)]
    exact if_pos pct_1200_exceeds
  · show (if valueMismatchPct 1200 sapLedgerRecord.total_value < 10 then
        ValidationSeverity.INFO else .WARNING) = .WARNING
    exact if_neg pct_1200_not_under_10
  · exact (reconcile_autoapply_fields 5 ship1200 sapLedger sapLedgerRecord
      (by decide)).2.1

/-- Witness for C4 at the concrete 1200-vs-1000 scenario. -/
theorem reconcile_value_mismatch_rule_witness :
    (((reconcileInbound 5 true ship1200 sapLedger).1.issues.filter
        (fun i => i.issue_type == ReconciliationType.VALUE_MISMATCH))
      = (if valueMismatchPct 1200 sapLedgerRecord.total_value > 5 then
          [valueIssueFor sapLedgerRecord 1200] else []))
    ∧ (valueIssueFor sapLedgerRecord 1200).severity
        = (if valueMismatchPct 1200 sapLedgerRecord.total_value < 10 then
            ValidationSeverity.INFO else .WARNING)
    ∧ (valueIssueFor sapLedgerRecord 1200).auto_resolvable = true
    ∧ ((reconcileInbound 5 true ship1050 sapLedger).1.issues.filter
        (fun i => i.issue_type == ReconciliationType.VALUE_MISMATCH)) = []
    ∧ ((reconcileInbound 5 true ship1200 sapLedger).1.issues.filter
        (fun i => i.issue_type == ReconciliationType.VALUE_MISMATCH))
      = [valueIssueFor sapLedgerRecord 1200]
    ∧ (valueIssueFor sapLedgerRecord 1200).severity = .WARNING
    ∧ (reconcileInbound 5 true ship1200 sapLedger).2.total_value = some 1000 :=
  reconcile_value_mismatch_rule 5 true ship1200 sapLedger sapLedgerRecord 1200
    (by decide) rfl (by decide) (by decide)

/-- C5 (corrected, amended part): with auto-apply on a matched record, the
engine overwrites currency and total value with the ledger values
unconditionally (whether or not any mismatch issue was reported), but the
brand list and the region splits are overwritten only when the ledger record
has a non-empty brand list / splits map respectively. -/
theorem reconcile_autoapply_overwrite (tol : ℚ) (sh : InboundShipment)
    (sap : List (String × SAPPDOData)) (m : SAPPDOData)
    (hm : findMatchingSAP sh.reference sap = some m) :
    ((reconcileInbound tol true sh sap).2.currency = some m.currency)
    ∧ ((reconcileInbound tol true sh sap).2.total_value = some m.total_value)
    ∧ ((reconcileInbound tol true sh sap).2.brands
        = (if m.brands = [] then sh.brands else m.brands))
    ∧ ((reconcileInbound tol true sh sap).2.country_splits
        = (if m.country_splits = [] then sh.country_splits
           else m.country_splits)) :=
  reconcile_autoapply_fields tol sh sap m hm

/-- Witness for the amended C5 theorem at a concrete ledger with empty brand
list and splits. -/
theorem reconcile_autoapply_overwrite_witness :
    ((reconcileInbound 5 true shipKeepBrands sapLedgerEmpty).2.currency
        = some sapEmptyBrands.currency)
    ∧ ((reconcileInbound 5 true shipKeepBrands sapLedgerEmpty).2.total_value
        = some sapEmptyBrands.total_value)
    ∧ ((reconcileInbound 5 true shipKeepBrands sapLedgerEmpty).2.brands
        = (if sapEmptyBrands.brands = [] then shipKeepBrands.brands
           else sapEmptyBrands.brands))
    ∧ ((reconcileInbound 5 true shipKeepBrands sapLedgerEmpty).2.country_splits
        = (if sapEmptyBrands.country_splits = [] then
            shipKeepBrands.country_splits
           else sapEmptyBrands.country_splits)) :=
  reconcile_autoapply_overwrite 5 shipKeepBrands sapLedgerEmpty sapEmptyBrands
    (by decide)

/-- C5 (counterexample): reconciling against a matched ledger record whose
brand list and splits map are empty leaves the shipment's own brands and
splits in place, so the overwrite of brands and region splits is *not*
unconditional. -/
theorem reconcile_autoapply_not_unconditional :
    (reconcileInbound 5 true shipKeepBrands sapLedgerEmpty).1.matched_pdo
      = some "2500555"
    ∧ (reconcileInbound 5 true shipKeepBrands sapLedgerEmpty).2.brands = ["OLD"]
    ∧ sapEmptyBrands.brands = []
    ∧ (["OLD"] : List String) ≠ sapEmptyBrands.brands
    ∧ (reconcileInbound 5 true shipKeepBrands sapLedgerEmpty).2.country_splits
        = [("SIN", (500 : ℚ))]
    ∧ sapEmptyBrands.country_splits = [] := by
  exact ⟨by decide, by decide, rfl, by decide, by decide, rfl⟩

/-- C10 (confirmed): when a ledger record is matched but the document value is
None or 0.0 (or the ledger value is 0.0), no value-mismatch issue is emitted
no matter how far apart the values are; yet with auto-apply the shipment's
total value and currency are still replaced by the ledger's. -/
theorem reconcile_zero_value_skips_check (tol : ℚ) (ap : Bool)
    (sh : InboundShipment) (sap : List (String × SAPPDOData)) (m : SAPPDOData)
    (hm : findMatchingSAP sh.reference sap = some m)
    (hz : sh.total_value = none ∨ sh.total_value = some 0
      ∨ m.total_value = 0) :
    (((reconcileInbound tol ap sh sap).1.issues.filter
        (fun i => i.issue_type == ReconciliationType.VALUE_MISMATCH)) = [])
    ∧ (ap = true →
        (reconcileInbound tol ap sh sap).2.total_value = some m.total_value
        ∧ (reconcileInbound tol ap sh sap).2.currency = some m.currency) := by
  constructor
  · rw [reconcileInbound_matched tol ap sh sap m hm]
    simp only [List.filter_append, currencyCheckIssues_no_value_issue,
      valueCheckIssues_all_value, List.nil_append]
    unfold valueCheckIssues
    rw [(currencyCheckApply_keeps ap sh m).1]
    rcases hz with hz | hz | hz
    · rw [hz]
    · rw [hz]
      simp
    · cases htv : sh.total_value with
      | none => rfl
      | some sv =>
          simp only
          rw [if_neg (fun h => h.2.1 hz)]
  · intro hap
    subst hap
    exact ⟨(reconcile_autoapply_fields tol sh sap m hm).2.1,
      (reconcile_autoapply_fields tol sh sap m hm).1⟩

/-- Witness for C10: document value 0.0 against ledger value 1000. -/
theorem reconcile_zero_value_skips_check_witness :
    (((reconcileInbound 5 true shipZeroValue sapLedger).1.issues.filter
        (fun i => i.issue_type == ReconciliationType.VALUE_MISMATCH)) = [])
    ∧ (true = true →
        (reconcileInbound 5 true shipZeroValue sapLedger).2.total_value
          = some sapLedgerRecord.total_value
        ∧ (reconcileInbound 5 true shipZeroValue sapLedger).2.currency
          = some sapLedgerRecord.currency) :=
  reconcile_zero_value_skips_check 5 true shipZeroValue sapLedger
    sapLedgerRecord (by decide) (Or.inr (Or.inl rfl))

/-- C3 (counterexample): for the description "profhilo syringe vitamin" no
verbatim label matches and the compound rule profhilo.*syringe matches, yet
the matched-rule list still contains a brand-tier entry and a keyword-tier
entry, and the keyword tier even contributes a category
(ORAL_SUPPLEMENTS via vitamin) to the result — so classification does not
short-circuit after the compound tier. -/
theorem classify_compound_match_does_not_stop_tiers :
    verbatimCatsOf (pyStrip (toLowerStr "profhilo syringe vitamin")) = []
    ∧ compoundMatchesOf (pyStrip (toLowerStr "profhilo syringe vitamin")) ≠ []
    ∧ "brand:profhilo" ∈ (classify "profhilo syringe vitamin").matched_patterns
    ∧ "keyword:\\bvitamin\\b"
        ∈ (classify "profhilo syringe vitamin").matched_patterns
    ∧ ProductCategory.ORAL_SUPPLEMENTS
        ∈ (classify "profhilo syringe vitamin").categories := by
  exact ⟨by decide, by decide, by decide, by decide, by decide⟩

/-- C3 (amended): classification short-circuits only at the verbatim tier —
on any verbatim-label match the result is exactly the verbatim matches at
confidence 0.95; otherwise the compound, brand and keyword tiers ALL run and
the matched-rule list is the concatenation of all three tiers' matches (a
compound match does not suppress the brand or keyword tiers). -/
theorem classify_tier_structure (description : String)
    (hne : description ≠ "") :
    (verbatimCatsOf (pyStrip (toLowerStr description)) ≠ [] →
      (classify description).matched_patterns
        = (verbatimMatchesOf (pyStrip (toLowerStr description))).map
            (fun lc => "verbatim:" ++ lc.1)
      ∧ (classify description).confidence = 95/100)
    ∧ (verbatimCatsOf (pyStrip (toLowerStr description)) = [] →
      (classify description).matched_patterns
        = (compoundMatchesOf (pyStrip (toLowerStr description))).map
            (fun r => "compound:" ++ r.1)
          ++ (brandMatchesOf (pyStrip (toLowerStr description))).map
            (fun bc => "brand:" ++ bc.1)
          ++ (keywordMatchesOf (pyStrip (toLowerStr description))).map
            (fun cp => "keyword:" ++ cp.2)) := by
  constructor
  · intro hv
    simp only [classify, if_neg hne]
    rw [if_pos hv]
    exact ⟨rfl, rfl⟩
  · intro hv
    simp only [classify, if_neg hne]
    rw [hv]
    rw [if_neg (by simp)]
    split <;> simp [List.append_assoc]

/-- Witness for the amended C3 theorem at a concrete description. -/
theorem classify_tier_structure_witness :
    (verbatimCatsOf (pyStrip (toLowerStr "profhilo syringe vitamin")) ≠ [] →
      (classify "profhilo syringe vitamin").matched_patterns
        = (verbatimMatchesOf
            (pyStrip (toLowerStr "profhilo syringe vitamin"))).map
            (fun lc => "verbatim:" ++ lc.1)
      ∧ (classify "profhilo syringe vitamin").confidence = 95/100)
    ∧ (verbatimCatsOf (pyStrip (toLowerStr "profhilo syringe vitamin")) = [] →
      (classify "profhilo syringe vitamin").matched_patterns
        = (compoundMatchesOf
            (pyStrip (toLowerStr "profhilo syringe vitamin"))).map
            (fun r => "compound:" ++ r.1)
          ++ (brandMatchesOf
            (pyStrip (toLowerStr "profhilo syringe vitamin"))).map
            (fun bc => "brand:" ++ bc.1)
          ++ (keywordMatchesOf
            (pyStrip (toLowerStr "profhilo syringe vitamin"))).map
            (fun cp => "keyword:" ++ cp.2)) :=
  classify_tier_structure "profhilo syringe vitamin" (by decide)

/-- C7 (confirmed): for every raw model response and prompt type, the two
parse-failure cases — no JSON object found, malformed JSON — never raise:
they return (`Except.ok`) an ExtractionResult tagged UNKNOWN with LOW
confidence, carrying the parse-error text in its error list and retaining the
raw response. -/
theorem parse_response_failures (raw : String) (page : Int) (ptype : String) :
    (findJson raw = none →
      parseResponse raw page ptype = .ok
        { document_type := .UNKNOWN, confidence := .LOW, page_number := page,
          raw_response := raw,
          extraction_errors := ["No JSON found in response"] })
    ∧ (∀ s e, findJson raw = some s → jsonParseErr s = some e →
      parseResponse raw page ptype = .ok
        { document_type := .UNKNOWN, confidence := .LOW, page_number := page,
          raw_response := raw,
          extraction_errors := ["JSON parse error: " ++ e] }) := by
  constructor
  · intro h
    simp only [parseResponse, h]
  · intro s e hs he
    simp only [parseResponse, hs]
    unfold jsonParseErr at he
    cases hp : jsonParseObj s with
    | error e2 =>
        rw [hp] at he
        simp only [Option.some.injEq] at he
        subst he
        rfl
    | ok _ =>
        rw [hp] at he
        cases he

/-- Witness for C7: a response with no braces, and one whose brace-delimited
snippet is not valid JSON. -/
theorem parse_response_failures_witness :
    parseResponse "plain text answer" 0 "inbound"
      = .ok { document_type := .UNKNOWN, confidence := .LOW, page_number := 0,
              raw_response := "plain text answer",
              extraction_errors := ["No JSON found in response"] }
    ∧ parseResponse "header {invalid} trailer" 3 "outbound_awb"
      = .ok { document_type := .UNKNOWN, confidence := .LOW, page_number := 3,
              raw_response := "header {invalid} trailer",
              extraction_errors := ["JSON parse error: Expecting property name enclosed in double quotes"] } :=
  ⟨(parse_response_failures "plain text answer" 0 "inbound").1 (by decide),
   (parse_response_failures "header {invalid} trailer" 3 "outbound_awb").2
     "{invalid}" "Expecting property name enclosed in double quotes"
     (by decide) (by decide)⟩

end MSIG
